import Mathlib

/-!
Verification development for the orderflow engine repository.

The TypeScript sources are shallowly embedded: prices, sizes, metric values
and millisecond timestamps are modelled as exact rationals (the wire carries
decimal strings and all claim-level comparisons are order comparisons), maps
keyed by price or order id are modelled as insertion-ordered association
lists with the exact `Map.set` / `Map.delete` semantics, and values that in
JavaScript may be `null`, `undefined`, `NaN` or non-finite are modelled as
`Option` values (`none` = absent / null / non-finite), matching the code's
`typeof v === 'number' && Number.isFinite(v)` guards.
-/

set_option maxHeartbeats 1000000

attribute [local semireducible] Rat.add Rat.mul Rat.sub Rat.inv

namespace Orderflow

/-! ## Order book (src/unnamed/part_001, OrderbookManager) -/

/-- Book lifecycle states, from `OrderbookUiState`. -/
inductive UiState
  | LIVE
  | STALE
  | RESYNCING
  | UNSEEDED
deriving DecidableEq, Repr

/-- Diagnostic counters, from `OrderbookState.stats`. -/
structure BookStats where
  applied : Nat
  dropped : Nat
  buffered : Nat
  desyncs : Nat
deriving DecidableEq, Repr

/-- A depth diff `{U, u, b, a}`; the price/size string pairs are modelled
after `parseFloat` as rationals. -/
structure DepthUpdate where
  U : Int
  u : Int
  b : List (Rat × Rat)
  a : List (Rat × Rat)
deriving DecidableEq, Repr

/-- REST depth snapshot `{lastUpdateId, bids, asks}` (entries post-parse). -/
structure DepthCache where
  lastUpdateId : Int
  bids : List (Rat × Rat)
  asks : List (Rat × Rat)
deriving DecidableEq, Repr

/-- Per-symbol book state, from `OrderbookState`.  The `bids`/`asks` maps are
insertion-ordered association lists from price to size.  (`lastDepthTime`,
`resyncPromise` and `lastSeenU_u` are wall-clock/diagnostic fields not touched
by any claim and are omitted.) -/
structure OrderbookState where
  lastUpdateId : Int
  bids : List (Rat × Rat)
  asks : List (Rat × Rat)
  uiState : UiState
  buffer : List DepthUpdate
  stats : BookStats
deriving DecidableEq, Repr

/-- `createOrderbookState()`. -/
def createOrderbookState : OrderbookState :=
  { lastUpdateId := 0
    bids := []
    asks := []
    uiState := .UNSEEDED
    buffer := []
    stats := { applied := 0, dropped := 0, buffered := 0, desyncs := 0 } }

/-- JavaScript `Map.set`: overwrite in place if the key exists, else append. -/
def levelSet (m : List (Rat × Rat)) (p q : Rat) : List (Rat × Rat) :=
  if m.any (fun e => e.1 = p) then
    m.map (fun e => if e.1 = p then (p, q) else e)
  else
    m ++ [(p, q)]

/-- JavaScript `Map.delete`. -/
def levelDelete (m : List (Rat × Rat)) (p : Rat) : List (Rat × Rat) :=
  m.filter (fun e => e.1 ≠ p)

/-- One side of `applyDelta`: `q == 0` deletes the level, otherwise sets it. -/
def applyEntries (m : List (Rat × Rat)) (es : List (Rat × Rat)) : List (Rat × Rat) :=
  es.foldl (fun acc e => if e.2 = 0 then levelDelete acc e.1 else levelSet acc e.1 e.2) m

/-- `applyDelta` (helper of `applyDepthUpdate`). -/
def applyDelta (s : OrderbookState) (d : DepthUpdate) : OrderbookState :=
  { s with
    bids := applyEntries s.bids d.b
    asks := applyEntries s.asks d.a
    lastUpdateId := d.u
    stats := { s.stats with applied := s.stats.applied + 1 }
    uiState := if s.uiState = .STALE then .LIVE else s.uiState }

/-- `MAX_GAP_TOLERANCE` from the source. -/
def MAX_GAP_TOLERANCE : Int := 100

/-- `applyDepthUpdate`; the boolean mirrors the source return value
(`true` = applied / buffered / benign drop, `false` = desync). -/
def applyDepthUpdate (s : OrderbookState) (d : DepthUpdate) : OrderbookState × Bool :=
  if s.lastUpdateId = 0 ∨ s.uiState = .RESYNCING ∨ s.uiState = .UNSEEDED then
    let buf := s.buffer ++ [d]
    let buf := if buf.length > 1000 then buf.tail else buf
    ({ s with buffer := buf, stats := { s.stats with buffered := s.stats.buffered + 1 } }, true)
  else if d.u ≤ s.lastUpdateId then
    ({ s with stats := { s.stats with dropped := s.stats.dropped + 1 } }, true)
  else
    let gap := d.U - (s.lastUpdateId + 1)
    if gap ≤ 0 ∧ d.u ≥ s.lastUpdateId + 1 then
      (applyDelta s d, true)
    else if 0 < gap ∧ gap ≤ MAX_GAP_TOLERANCE then
      (applyDelta s d, true)
    else
      ({ s with stats := { s.stats with desyncs := s.stats.desyncs + 1 } }, false)

/-- Loading one snapshot side onto a cleared map: only sizes `> 0` are kept. -/
def loadSide (entries : List (Rat × Rat)) : List (Rat × Rat) :=
  entries.foldl (fun acc e => if e.2 > 0 then levelSet acc e.1 e.2 else acc) []

/-- `applySnapshot`: clear, load positive levels, go LIVE, then replay the
buffered diffs whose `u` exceeds the snapshot id through `applyDepthUpdate`. -/
def applySnapshot (s : OrderbookState) (snap : DepthCache) : OrderbookState :=
  let s1 : OrderbookState :=
    { s with
      bids := loadSide snap.bids
      asks := loadSide snap.asks
      lastUpdateId := snap.lastUpdateId
      uiState := .LIVE }
  if s1.buffer.length > 0 then
    let valid := s1.buffer.filter (fun d => d.u > s1.lastUpdateId)
    let s2 := { s1 with buffer := [] }
    valid.foldl (fun st d => (applyDepthUpdate st d).1) s2
  else
    s1

/-! ### Concrete scenario inputs (spec S1, S2, S3) -/

/-- S1 snapshot: `lastUpdateId=100, bids=[[10,1]], asks=[[11,1]]`. -/
def snapS1 : DepthCache := { lastUpdateId := 100, bids := [(10, 1)], asks := [(11, 1)] }

/-- S1 diff: `{U=101,u=101,b=[[10,2]],a=[]}`. -/
def diffS1 : DepthUpdate := { U := 101, u := 101, b := [(10, 2)], a := [] }

/-- S2 diff: `{U=110,u=111,b=[],a=[[11,0]]}`. -/
def diffS2 : DepthUpdate := { U := 110, u := 111, b := [], a := [(11, 0)] }

/-- S3 diff: `{U=500,u=500}` (empty sides). -/
def diffS3 : DepthUpdate := { U := 500, u := 500, b := [], a := [] }

/-- The book state after scenario S1 (seed with `snapS1`, then apply `diffS1`). -/
def s1state : OrderbookState :=
  (applyDepthUpdate (applySnapshot createOrderbookState snapS1) diffS1).1

/-- Counterexample state for the book-monotonicity claim: a LIVE book at
sequence 500 onto which a snapshot with `lastUpdateId = 100` is applied. -/
def cexBook : OrderbookState :=
  { lastUpdateId := 500
    bids := [(10, 1)]
    asks := [(11, 1)]
    uiState := .LIVE
    buffer := []
    stats := { applied := 3, dropped := 0, buffered := 0, desyncs := 1 } }

/-- Counterexample snapshot with a lower sequence id than `cexBook`. -/
def cexSnap : DepthCache := { lastUpdateId := 100, bids := [(10, 1)], asks := [], }

/-- All stored levels on a side have positive size. -/
def levelsPos (m : List (Rat × Rat)) : Prop := ∀ e ∈ m, 0 < e.2

/-- Both book sides have only positive sizes. -/
def bookPos (s : OrderbookState) : Prop := levelsPos s.bids ∧ levelsPos s.asks

/-- Every entry of a diff carries a non-negative (parsed) size. -/
def diffNonneg (d : DepthUpdate) : Prop :=
  (∀ e ∈ d.b, 0 ≤ e.2) ∧ (∀ e ∈ d.a, 0 ≤ e.2)

/-- Every buffered diff carries only non-negative sizes. -/
def bufferNonneg (s : OrderbookState) : Prop := ∀ d ∈ s.buffer, diffNonneg d

/-! ## Gate (src/unnamed/part_003 `runGate`, types from src/unnamed/part_002) -/

/-- `GateMode` enum. -/
inductive GateMode
  | V1_NO_LATENCY
  | V2_NETWORK_LATENCY
deriving DecidableEq, Repr

/-- The `v2` sub-config of `GateConfig`. -/
structure V2Config where
  maxNetworkLatencyMs : Rat
deriving DecidableEq, Repr

/-- `GateConfig`. -/
structure GateConfig where
  mode : GateMode
  maxSpreadPct : Rat
  minObiDeep : Rat
  v2 : Option V2Config
deriving DecidableEq, Repr

/-- The `legacyMetrics` object of `OrchestratorMetricsInput`; `none` models a
missing / null / non-finite field. -/
structure LegacyMetricsInput where
  obiDeep : Option Rat
  deltaZ : Option Rat
  cvdSlope : Option Rat
deriving DecidableEq, Repr

/-- `OrchestratorMetricsInput` (src/unnamed/part_002). -/
structure OrchestratorMetricsInput where
  symbol : String
  canonical_time_ms : Option Rat
  exchange_event_time_ms : Option Rat
  spread_pct : Option Rat
  prints_per_second : Option Rat
  best_bid : Option Rat
  best_ask : Option Rat
  legacyMetrics : Option LegacyMetricsInput
deriving DecidableEq, Repr

/-- `RunGateInput`. -/
structure RunGateInput where
  canonical_time_ms : Rat
  exchange_event_time_ms : Option Rat
  metrics : OrchestratorMetricsInput
deriving DecidableEq, Repr

/-- The four gate-failure reason strings. -/
inductive GateReason
  | missing_metrics
  | spread_too_wide
  | insufficient_liquidity
  | network_latency_too_high
deriving DecidableEq, Repr

/-- The reason string written into decision records. -/
def GateReason.toText : GateReason → String
  | .missing_metrics => "missing_metrics"
  | .spread_too_wide => "spread_too_wide"
  | .insufficient_liquidity => "insufficient_liquidity"
  | .network_latency_too_high => "network_latency_too_high"

/-- `GateResult.checks`. -/
structure GateChecks where
  hasRequiredMetrics : Bool
  spreadOk : Bool
  obiDeepOk : Bool
  networkLatencyOk : Option Bool
deriving DecidableEq, Repr

/-- `GateResult`. -/
structure GateResult where
  mode : GateMode
  passed : Bool
  reason : Option GateReason
  network_latency_ms : Option Rat
  checks : GateChecks
deriving DecidableEq, Repr

/-- The required-metrics test of `runGate`: all five values are finite
numbers (`typeof v === 'number' && Number.isFinite(v)`). -/
def hasRequired (m : OrchestratorMetricsInput) : Bool :=
  m.spread_pct.isSome
    && (m.legacyMetrics.bind (fun l => l.obiDeep)).isSome
    && (m.legacyMetrics.bind (fun l => l.deltaZ)).isSome
    && (m.legacyMetrics.bind (fun l => l.cvdSlope)).isSome
    && m.prints_per_second.isSome

/-- The spread check `spread <= cfg.maxSpreadPct`. -/
def gateSpreadOk (input : RunGateInput) (cfg : GateConfig) : Bool :=
  decide (input.metrics.spread_pct.getD 0 ≤ cfg.maxSpreadPct)

/-- The liquidity check `Math.abs(obiDeep) >= cfg.minObiDeep`. -/
def gateObiOk (input : RunGateInput) (cfg : GateConfig) : Bool :=
  decide (cfg.minObiDeep ≤ |(input.metrics.legacyMetrics.bind (fun l => l.obiDeep)).getD 0|)

/-- `networkLatencyMs = exchange === null ? null : max(0, canonical - exchange)`. -/
def gateNetLat (input : RunGateInput) : Option Rat :=
  match input.exchange_event_time_ms with
  | none => none
  | some e => some (max 0 (input.canonical_time_ms - e))

/-- The V2 latency check body:
`networkLatencyMs !== null && networkLatencyMs <= (cfg.v2?.maxNetworkLatencyMs ?? Infinity)`. -/
def gateNetOkB (input : RunGateInput) (cfg : GateConfig) : Bool :=
  match gateNetLat input with
  | none => false
  | some l =>
    match cfg.v2 with
    | none => true
    | some v => decide (l ≤ v.maxNetworkLatencyMs)

/-- `runGate` (src/unnamed/part_003). -/
def runGate (input : RunGateInput) (cfg : GateConfig) : GateResult :=
  if hasRequired input.metrics = false then
    { mode := cfg.mode
      passed := false
      reason := some .missing_metrics
      network_latency_ms := none
      checks :=
        { hasRequiredMetrics := false
          spreadOk := false
          obiDeepOk := false
          networkLatencyOk := if cfg.mode = .V2_NETWORK_LATENCY then some false else none } }
  else
    let spreadOk : Bool := gateSpreadOk input cfg
    let obiDeepOk : Bool := gateObiOk input cfg
    let networkLatencyMs : Option Rat := gateNetLat input
    let networkLatencyOkB : Bool := gateNetOkB input cfg
    let reason : Option GateReason :=
      if spreadOk = false then some .spread_too_wide
      else if obiDeepOk = false then some .insufficient_liquidity
      else if cfg.mode = .V2_NETWORK_LATENCY ∧ networkLatencyOkB = false then
        some .network_latency_too_high
      else none
    { mode := cfg.mode
      passed := reason.isNone
      reason := reason
      network_latency_ms := if cfg.mode = .V2_NETWORK_LATENCY then networkLatencyMs else none
      checks :=
        { hasRequiredMetrics := true
          spreadOk := spreadOk
          obiDeepOk := obiDeepOk
          networkLatencyOk :=
            if cfg.mode = .V2_NETWORK_LATENCY then some networkLatencyOkB else none } }

/-! ### Concrete gate inputs (spec S4/S5 and the null-exchange-time case) -/

/-- The S4/S5 base metrics: `spread_pct=0.01, prints_per_second=4,
obi_deep=0.3, delta_z=1.1, cvd_slope=0.2`. -/
def baseMetrics : OrchestratorMetricsInput :=
  { symbol := "BTCUSDT"
    canonical_time_ms := none
    exchange_event_time_ms := none
    spread_pct := some (1 / 100)
    prints_per_second := some 4
    best_bid := none
    best_ask := none
    legacyMetrics :=
      some { obiDeep := some (3 / 10), deltaZ := some (11 / 10), cvdSlope := some (1 / 5) } }

/-- S5 input: canonical 2000, exchange event time 1. -/
def s5input : RunGateInput :=
  { canonical_time_ms := 2000, exchange_event_time_ms := some 1, metrics := baseMetrics }

/-- S5 config: V2 with `max_network_latency_ms = 100`. -/
def s5cfg : GateConfig :=
  { mode := .V2_NETWORK_LATENCY
    maxSpreadPct := 8 / 100
    minObiDeep := 5 / 100
    v2 := some { maxNetworkLatencyMs := 100 } }

/-- Gate input with all five required metrics finite, a spread wider than the
S5 config allows, and a null exchange event time. -/
def c10input : RunGateInput :=
  { canonical_time_ms := 2000
    exchange_event_time_ms := none
    metrics := { baseMetrics with spread_pct := some 1 } }

/-- Gate input with the S4 metrics (all checks pass) but a null exchange
event time. -/
def c10okInput : RunGateInput :=
  { canonical_time_ms := 2000, exchange_event_time_ms := none, metrics := baseMetrics }

/-! ## Decision engine (src/server/orchestrator/Decision.ts) -/

/-- Order side. -/
inductive OrderSide
  | BUY
  | SELL
deriving DecidableEq, Repr

/-- Position side. -/
inductive PosSide
  | LONG
  | SHORT
deriving DecidableEq, Repr

/-- Order type. -/
inductive OrderType
  | MARKET
  | LIMIT
deriving DecidableEq, Repr

/-- `PositionState`. -/
structure PositionState where
  side : PosSide
  qty : Rat
  entryPrice : Rat
  unrealizedPnlPct : Rat
  addsUsed : Nat
  peakPnlPct : Rat
deriving DecidableEq, Repr

/-- `ExecutionQualityState`. -/
structure ExecutionQualityState where
  poor : Bool
  recentLatencyMs : List Rat
  recentSlippageBps : List Rat
deriving DecidableEq, Repr

/-- `OpenOrderState`. -/
structure OpenOrderState where
  orderId : String
  clientOrderId : String
  side : OrderSide
  orderType : OrderType
  status : String
  origQty : Rat
  executedQty : Rat
  reduceOnly : Bool
  event_time_ms : Rat
deriving DecidableEq, Repr

/-- `SymbolState`; `openOrders` is the insertion-ordered map keyed by orderId. -/
structure SymbolState where
  symbol : String
  halted : Bool
  availableBalance : Rat
  walletBalance : Rat
  position : Option PositionState
  openOrders : List (String × OpenOrderState)
  hasOpenEntryOrder : Bool
  cooldown_until_ms : Rat
  last_exit_event_time_ms : Rat
  execQuality : ExecutionQualityState
deriving DecidableEq, Repr

/-- `DecisionActionType`. -/
inductive DecisionActionType
  | ENTRY_PROBE
  | ADD_POSITION
  | EXIT_MARKET
  | CANCEL_OPEN_ENTRY_ORDERS
  | NOOP
deriving DecidableEq, Repr

/-- `DecisionAction`; optional fields that a given variant does not set are
`none` (in the source they are absent, or null for a null expected price). -/
structure DecisionAction where
  type : DecisionActionType
  symbol : String
  event_time_ms : Rat
  side : Option OrderSide
  quantity : Option Rat
  reduceOnly : Option Bool
  reason : String
  expectedPrice : Option Rat
  targetMarginUsdt : Option Rat
  targetNotionalUsdt : Option Rat
deriving DecidableEq, Repr

/-- A NOOP action with the given reason. -/
def mkNoop (symbol : String) (event_time_ms : Rat) (reason : String) : DecisionAction :=
  { type := .NOOP, symbol := symbol, event_time_ms := event_time_ms, side := none
    quantity := none, reduceOnly := none, reason := reason, expectedPrice := none
    targetMarginUsdt := none, targetNotionalUsdt := none }

/-- `DecisionDependencies`; `expectedPrice` is only consulted for MARKET
orders inside `evaluate`, so the order-type / limit-price arguments are
specialised away. -/
structure DecisionDeps where
  expectedPrice : String → OrderSide → Option Rat
  getInitialMarginUsdt : Rat
  getMaxLeverage : Rat

/-- JavaScript comparison `x < c` where `x` may be undefined (undefined / NaN
comparisons are false). -/
def jsLT (x : Option Rat) (c : Rat) : Bool :=
  match x with
  | some v => decide (v < c)
  | none => false

/-- JavaScript comparison `x > c` where `x` may be undefined. -/
def jsGT (x : Option Rat) (c : Rat) : Bool :=
  match x with
  | some v => decide (c < v)
  | none => false

/-- `Number(q.toFixed(6))`: round to six decimal places. -/
def toFixed6 (q : Rat) : Rat := ((round (q * 1000000) : Int) : Rat) / 1000000

/-- `DecisionEngine.computeProbeQuantity` (the `deltaZ`/`obiDeep`/`execPoor`
arguments are unused by the source body and omitted).  The caller guarantees
`price > 0`, so the JS finiteness guard reduces to the sign check. -/
def computeProbeQuantity (deps : DecisionDeps) (initialMarginUsdt expectedPrice : Rat) : Rat :=
  let notional := initialMarginUsdt * deps.getMaxLeverage
  let qty := notional / expectedPrice
  if qty ≤ 0 then 0 else toFixed6 qty

/-- `DecisionEngine.exitAction`. -/
def exitAction (deps : DecisionDeps) (symbol : String) (event_time_ms : Rat)
    (side : OrderSide) (reason : String) : DecisionAction :=
  { type := .EXIT_MARKET, symbol := symbol, event_time_ms := event_time_ms
    side := some side, quantity := none, reduceOnly := some true, reason := reason
    expectedPrice := deps.expectedPrice symbol side
    targetMarginUsdt := none, targetNotionalUsdt := none }

/-- The ENTRY_PROBE / ADD_POSITION order action shared by both sites. -/
def mkOrderAction (deps : DecisionDeps) (type : DecisionActionType) (symbol : String)
    (event_time_ms : Rat) (side : OrderSide) (quantity price : Rat) (reason : String) :
    DecisionAction :=
  { type := type, symbol := symbol, event_time_ms := event_time_ms
    side := some side, quantity := some quantity, reduceOnly := some false
    reason := reason, expectedPrice := some price
    targetMarginUsdt := some deps.getInitialMarginUsdt
    targetNotionalUsdt := some (deps.getInitialMarginUsdt * deps.getMaxLeverage) }

/-- `DecisionEngine.evaluate`. -/
def evaluate (deps : DecisionDeps) (symbol : String) (event_time_ms : Rat)
    (gate : GateResult) (metrics : OrchestratorMetricsInput) (state : SymbolState) :
    List DecisionAction :=
  if gate.passed = false then
    [mkNoop symbol event_time_ms
      ("gate_fail:" ++ (match gate.reason with | some r => r.toText | none => "unknown"))]
  else
    let deltaZ := metrics.legacyMetrics.bind (fun l => l.deltaZ)
    let cvdSlope := metrics.legacyMetrics.bind (fun l => l.cvdSlope)
    let inCooldown : Bool := decide (event_time_ms < state.cooldown_until_ms)
    let actions0 : List DecisionAction :=
      if state.halted ∧ state.hasOpenEntryOrder then
        [{ type := .CANCEL_OPEN_ENTRY_ORDERS, symbol := symbol, event_time_ms := event_time_ms
           side := none, quantity := none, reduceOnly := none
           reason := "halt_mode_cancel_entry", expectedPrice := none
           targetMarginUsdt := none, targetNotionalUsdt := none }]
      else []
    match state.position with
    | none =>
      let actions :=
        if state.halted = false ∧ state.hasOpenEntryOrder = false
            ∧ state.openOrders.length = 0 ∧ inCooldown = false then
          let side : Option OrderSide :=
            if jsGT deltaZ 0 then some .BUY else if jsLT deltaZ 0 then some .SELL else none
          match side with
          | some sd =>
            match deps.expectedPrice symbol sd with
            | some price =>
              if 0 < price then
                let probeQuantity :=
                  computeProbeQuantity deps deps.getInitialMarginUsdt price
                if 0 < probeQuantity then
                  actions0 ++ [mkOrderAction deps .ENTRY_PROBE symbol event_time_ms sd
                    probeQuantity price "entry_probe_liquidity_pressure_context"]
                else actions0
              else actions0
            | none => actions0
          | none => actions0
        else actions0
      if actions.length > 0 then actions
      else
        [mkNoop symbol event_time_ms
          (if state.halted then "halt_mode" else if inCooldown then "cooldown" else "flat_wait")]
    | some position =>
      let pnlDrawdown := position.peakPnlPct - position.unrealizedPnlPct
      let ex1 :=
        if position.peakPnlPct > (1 / 2) ∧ pnlDrawdown > (1 / 5) then
          [exitAction deps symbol event_time_ms
            (if position.side = .LONG then .SELL else .BUY) "profit_lock_drawdown"]
        else []
      let ex2 :=
        if position.side = .LONG ∧ jsLT deltaZ (-3) = true ∧ jsLT cvdSlope (-(1 / 2)) = true then
          [exitAction deps symbol event_time_ms .SELL "reversal_exit_long"]
        else []
      let ex3 :=
        if position.side = .SHORT ∧ jsGT deltaZ 3 = true ∧ jsGT cvdSlope (1 / 2) = true then
          [exitAction deps symbol event_time_ms .BUY "reversal_exit_short"]
        else []
      let ex4 :=
        if state.execQuality.poor = true ∧ state.execQuality.recentLatencyMs.length ≥ 3 then
          [exitAction deps symbol event_time_ms
            (if position.side = .LONG then .SELL else .BUY) "emergency_exit_exec_quality"]
        else []
      let canAdd : Prop :=
        state.halted = false ∧ position.addsUsed < 2
          ∧ position.unrealizedPnlPct > (1 / 10) ∧ state.execQuality.poor = false
          ∧ ((position.side = .LONG ∧ jsGT deltaZ 0 = true)
              ∨ (position.side = .SHORT ∧ jsLT deltaZ 0 = true))
      let addActions :=
        if canAdd then
          let side : OrderSide := if position.side = .LONG then .BUY else .SELL
          match deps.expectedPrice symbol side with
          | some price =>
            if 0 < price then
              let qty := computeProbeQuantity deps deps.getInitialMarginUsdt price
              if 0 < qty then
                [mkOrderAction deps .ADD_POSITION symbol event_time_ms side qty price
                  "scale_in_momentum"]
              else []
            else []
          | none => []
        else []
      let actions := actions0 ++ ex1 ++ ex2 ++ ex3 ++ ex4 ++ addActions
      if actions.length > 0 then actions else [mkNoop symbol event_time_ms "position_manage"]

/-- `DecisionEngine.computeCooldownMs`:
`Math.max(minMs, Math.min(maxMs, Math.round(200 * (|deltaZ| + pps / 10))))`. -/
def computeCooldownMs (deltaZ printsPerSecond minMs maxMs : Rat) : Rat :=
  let raw := 200 * (|deltaZ| + printsPerSecond / 10)
  max minMs (min maxMs ((round raw : Int) : Rat))

/-! ## Symbol actor (SymbolActor in src/server/orchestrator/types.ts) -/

/-- Cooldown bounds handed to each actor. -/
structure CooldownConfig where
  minMs : Rat
  maxMs : Rat
deriving DecidableEq, Repr

/-- The actor's own mutable fields next to its `SymbolState`. -/
structure ActorState where
  state : SymbolState
  lastDeltaZ : Rat
  lastPrintsPerSecond : Rat
deriving DecidableEq, Repr

/-- `ACCOUNT_UPDATE` execution event payload. -/
structure AccountUpdateEvent where
  symbol : String
  event_time_ms : Rat
  availableBalance : Rat
  walletBalance : Rat
  positionAmt : Rat
  entryPrice : Rat
  unrealizedPnL : Rat
deriving DecidableEq, Repr

/-- `ORDER_UPDATE` execution event payload. -/
structure OrderUpdateEvent where
  symbol : String
  event_time_ms : Rat
  orderId : String
  clientOrderId : String
  side : OrderSide
  orderType : OrderType
  status : String
  origQty : Rat
  executedQty : Rat
  price : Rat
  reduceOnly : Bool
deriving DecidableEq, Repr

/-- An order inside an `OPEN_ORDERS_SNAPSHOT`. -/
structure OpenOrderInfo where
  orderId : String
  clientOrderId : String
  side : OrderSide
  orderType : OrderType
  status : String
  origQty : Rat
  executedQty : Rat
  price : Rat
  reduceOnly : Bool
deriving DecidableEq, Repr

/-- `OPEN_ORDERS_SNAPSHOT` execution event payload. -/
structure OpenOrdersSnapshotEvent where
  symbol : String
  event_time_ms : Rat
  orders : List OpenOrderInfo
deriving DecidableEq, Repr

/-- `TRADE_UPDATE` execution event payload. -/
structure TradeUpdateEvent where
  symbol : String
  event_time_ms : Rat
  orderId : String
  tradeId : String
  side : OrderSide
  fillQty : Rat
  fillPrice : Rat
  commission : Rat
  realizedPnl : Rat
deriving DecidableEq, Repr

/-- `SYSTEM_HALT` / `SYSTEM_RESUME` payload. -/
structure SystemSignalEvent where
  symbol : String
  event_time_ms : Rat
  reason : String
deriving DecidableEq, Repr

/-- The tagged `ExecutionEvent` union. -/
inductive ExecutionEvent
  | ACCOUNT_UPDATE (e : AccountUpdateEvent)
  | ORDER_UPDATE (e : OrderUpdateEvent)
  | OPEN_ORDERS_SNAPSHOT (e : OpenOrdersSnapshotEvent)
  | TRADE_UPDATE (e : TradeUpdateEvent)
  | SYSTEM_HALT (e : SystemSignalEvent)
  | SYSTEM_RESUME (e : SystemSignalEvent)
deriving DecidableEq, Repr

/-- Symbol carried by an execution event. -/
def ExecutionEvent.sym : ExecutionEvent → String
  | .ACCOUNT_UPDATE e => e.symbol
  | .ORDER_UPDATE e => e.symbol
  | .OPEN_ORDERS_SNAPSHOT e => e.symbol
  | .TRADE_UPDATE e => e.symbol
  | .SYSTEM_HALT e => e.symbol
  | .SYSTEM_RESUME e => e.symbol

/-- JavaScript `Map.set` on the order map. -/
def ordersSet (m : List (String × OpenOrderState)) (k : String) (v : OpenOrderState) :
    List (String × OpenOrderState) :=
  if m.any (fun e => e.1 = k) then m.map (fun e => if e.1 = k then (k, v) else e)
  else m ++ [(k, v)]

/-- JavaScript `Map.delete` on the order map. -/
def ordersDelete (m : List (String × OpenOrderState)) (k : String) :
    List (String × OpenOrderState) :=
  m.filter (fun e => e.1 ≠ k)

/-- Terminal order statuses in the `ORDER_UPDATE` handler. -/
def isTerminalStatus (status : String) : Bool :=
  status = "FILLED" ∨ status = "CANCELED" ∨ status = "REJECTED" ∨ status = "EXPIRED"

/-- The actor's initial `SymbolState` (constructor of `SymbolActor`). -/
def initialSymbolState (symbol : String) : SymbolState :=
  { symbol := symbol
    halted := false
    availableBalance := 0
    walletBalance := 0
    position := none
    openOrders := []
    hasOpenEntryOrder := false
    cooldown_until_ms := 0
    last_exit_event_time_ms := 0
    execQuality := { poor := false, recentLatencyMs := [], recentSlippageBps := [] } }

/-- A fresh actor. -/
def initialActorState (symbol : String) : ActorState :=
  { state := initialSymbolState symbol, lastDeltaZ := 0, lastPrintsPerSecond := 0 }

/-- The `ACCOUNT_UPDATE` branch of `SymbolActor.onExecutionEvent`. -/
def onAccountUpdate (cfg : CooldownConfig) (a : ActorState) (e : AccountUpdateEvent) :
    ActorState :=
  let hadPosition := a.state.position.isSome
  let s1 := { a.state with availableBalance := e.availableBalance
                           walletBalance := e.walletBalance }
  let qty := |e.positionAmt|
  let s2 : SymbolState :=
    if qty = 0 then { s1 with position := none }
    else
      let side : PosSide := if 0 < e.positionAmt then .LONG else .SHORT
      let prevPeak :=
        (match s1.position with
         | some p => p.peakPnlPct
         | none => e.unrealizedPnL)
      let newPos : PositionState :=
        { side := side
          qty := qty
          entryPrice := e.entryPrice
          unrealizedPnlPct := e.unrealizedPnL
          addsUsed := (match s1.position with | some p => p.addsUsed | none => 0)
          peakPnlPct := max prevPeak e.unrealizedPnL }
      { s1 with position := some newPos }
  if hadPosition = true ∧ s2.position = none then
    let cooldownMs := computeCooldownMs a.lastDeltaZ a.lastPrintsPerSecond cfg.minMs cfg.maxMs
    { a with state :=
        { s2 with last_exit_event_time_ms := e.event_time_ms
                  cooldown_until_ms := e.event_time_ms + cooldownMs } }
  else
    { a with state := s2 }

/-- `SymbolActor.onExecutionEvent`.  In replay the execution connector is
disabled, so `getExpectedOrderMeta` always returns null and the
`TRADE_UPDATE` branch only re-logs without touching state. -/
def actorOnExecution (cfg : CooldownConfig) (a : ActorState) : ExecutionEvent → ActorState
  | .SYSTEM_HALT _ => { a with state := { a.state with halted := true } }
  | .SYSTEM_RESUME _ => { a with state := { a.state with halted := false } }
  | .ORDER_UPDATE e =>
    let orders :=
      if isTerminalStatus e.status then ordersDelete a.state.openOrders e.orderId
      else
        ordersSet a.state.openOrders e.orderId
          { orderId := e.orderId, clientOrderId := e.clientOrderId, side := e.side
            orderType := e.orderType, status := e.status, origQty := e.origQty
            executedQty := e.executedQty, reduceOnly := e.reduceOnly
            event_time_ms := e.event_time_ms }
    { a with state :=
        { a.state with openOrders := orders
                       hasOpenEntryOrder := orders.any (fun p => p.2.reduceOnly = false) } }
  | .OPEN_ORDERS_SNAPSHOT e =>
    let orders := e.orders.foldl
      (fun acc o => ordersSet acc o.orderId
        { orderId := o.orderId, clientOrderId := o.clientOrderId, side := o.side
          orderType := o.orderType, status := o.status, origQty := o.origQty
          executedQty := o.executedQty, reduceOnly := o.reduceOnly
          event_time_ms := e.event_time_ms }) []
    { a with state :=
        { a.state with openOrders := orders
                       hasOpenEntryOrder := orders.any (fun p => p.2.reduceOnly = false) } }
  | .TRADE_UPDATE _ => a
  | .ACCOUNT_UPDATE e => onAccountUpdate cfg a e

/-! ## Orchestrator logger (OrchestratorLogger, src/server/connectors/ExecutionConnector.ts) -/

/-- Log stream kind. -/
inductive LogKind
  | metrics
  | execution
  | decision
deriving DecidableEq, Repr

/-- A queued log item.  The JSON payload itself does not influence the queue
discipline, so it is carried as an opaque string. -/
structure QueueItem where
  kind : LogKind
  eventTimeMs : Rat
  payload : String
deriving DecidableEq, Repr

/-- Logger configuration (`OrchestratorLoggerConfig` without the directory
and callback, which are modelled separately). -/
structure LoggerConfig where
  queueLimit : Nat
  dropHaltThreshold : Nat
deriving DecidableEq, Repr

/-- Logger counters and queue. -/
structure LoggerState where
  queue : List QueueItem
  dropCount : Nat
  dropWindowCount : Nat
deriving DecidableEq, Repr

/-- The interval of the drop-spike timer (`setInterval(..., 10_000)`). -/
def LOGGER_TIMER_INTERVAL_MS : Rat := 10000

/-- `OrchestratorLogger.enqueue`: on overflow the item is dropped and the two
drop counters are incremented; otherwise the item is appended. -/
def loggerEnqueue (cfg : LoggerConfig) (st : LoggerState) (item : QueueItem) : LoggerState :=
  if st.queue.length ≥ cfg.queueLimit then
    { st with dropCount := st.dropCount + 1, dropWindowCount := st.dropWindowCount + 1 }
  else
    { st with queue := st.queue ++ [item] }

/-! ## Snapshot fetcher (fetchSnapshot, src/server/connectors/ExecutionConnector.ts) -/

/-- `SNAPSHOT_MIN_INTERVAL_MS`. -/
def SNAPSHOT_MIN_INTERVAL_MS : Rat := 60000

/-- `MIN_BACKOFF_MS`. -/
def MIN_BACKOFF_MS : Rat := 5000

/-- `MAX_BACKOFF_MS`. -/
def MAX_BACKOFF_MS : Rat := 120000

/-- Per-symbol fetcher state (`SymbolMeta`; purely diagnostic message
counters not read or written by `fetchSnapshot` are omitted). -/
structure SymbolMeta where
  lastSnapshotAttempt : Rat
  lastSnapshotOk : Rat
  backoffMs : Rat
  consecutiveErrors : Nat
  isResyncing : Bool
  snapshotCount : Nat
  lastSnapshotHttpStatus : Int
  snapshotLastUpdateId : Int
deriving DecidableEq, Repr

/-- Outcome of the REST depth request as observed by `fetchSnapshot`. -/
inductive FetchOutcome
  | rateLimited (status : Int) (retryAfterMs : Rat)
  | httpError (status : Int)
  | ok (snap : DepthCache)
  | networkError
deriving DecidableEq, Repr

/-- Result of one `fetchSnapshot` call; `requested = false` means the call
returned before issuing any HTTP request. -/
structure FetchResult where
  meta : SymbolMeta
  ob : OrderbookState
  globalBackoffUntil : Rat
  requested : Bool
deriving DecidableEq, Repr

/-- `fetchSnapshot`.  `now` stands for `Date.now()` at entry (the second
`Date.now()` on the 429 path is identified with it), and `response` is the
outcome the HTTP request would produce when one is issued. -/
def fetchSnapshot (meta : SymbolMeta) (ob : OrderbookState) (globalBackoffUntil now : Rat)
    (response : FetchOutcome) : FetchResult :=
  if now < globalBackoffUntil then
    { meta := meta, ob := ob, globalBackoffUntil := globalBackoffUntil, requested := false }
  else if ob.uiState ≠ .UNSEEDED
      ∧ now - meta.lastSnapshotAttempt < SNAPSHOT_MIN_INTERVAL_MS
      ∧ now - meta.lastSnapshotAttempt < meta.backoffMs then
    { meta := meta, ob := ob, globalBackoffUntil := globalBackoffUntil, requested := false }
  else
    let meta1 := { meta with lastSnapshotAttempt := now, isResyncing := true }
    let ob1 := { ob with uiState := .RESYNCING }
    match response with
    | .rateLimited status retryAfterMs =>
      { meta := { meta1 with lastSnapshotHttpStatus := status
                             backoffMs := min (meta1.backoffMs * 2) MAX_BACKOFF_MS }
        ob := { ob1 with uiState := .STALE }
        globalBackoffUntil := now + retryAfterMs
        requested := true }
    | .httpError status =>
      let meta2 := { meta1 with lastSnapshotHttpStatus := status
                                backoffMs := min (meta1.backoffMs * 2) MAX_BACKOFF_MS
                                consecutiveErrors := meta1.consecutiveErrors + 1 }
      { meta := meta2
        ob := { ob1 with uiState := if meta2.consecutiveErrors > 3 then .STALE else .RESYNCING }
        globalBackoffUntil := globalBackoffUntil
        requested := true }
    | .ok snap =>
      { meta := { meta1 with lastSnapshotHttpStatus := 200
                             lastSnapshotOk := now
                             snapshotLastUpdateId := snap.lastUpdateId
                             backoffMs := MIN_BACKOFF_MS
                             consecutiveErrors := 0
                             isResyncing := false
                             snapshotCount := meta1.snapshotCount + 1 }
        ob := applySnapshot ob1 snap
        globalBackoffUntil := globalBackoffUntil
        requested := true }
    | .networkError =>
      { meta := { meta1 with backoffMs := min (meta1.backoffMs * 2) MAX_BACKOFF_MS }
        ob := ob1
        globalBackoffUntil := globalBackoffUntil
        requested := true }

/-- Fetcher state at the C6 failing input: default backoff (5000 ms), last
attempt at time 0. -/
def cexMeta : SymbolMeta :=
  { lastSnapshotAttempt := 0
    lastSnapshotOk := 0
    backoffMs := 5000
    consecutiveErrors := 0
    isResyncing := false
    snapshotCount := 0
    lastSnapshotHttpStatus := 0
    snapshotLastUpdateId := 0 }

/-! ## Orchestrator and replay (Orchestrator.ts, Replay.ts)

The cooperative event loop is modelled by processing every envelope
synchronously at its enqueue point: per symbol this is exactly the FIFO
order the single-flight actor processes, and the decision ledger and state
snapshot contain the same records either way.  During replay the execution
connector is disabled, so `executeActions` performs no external call and
records no expected-order metadata. -/

/-- `String.prototype.toUpperCase()`, modelled character-wise (exchange
symbols are ASCII). -/
def jsToUpper (s : String) : String := String.mk (s.data.map Char.toUpper)

/-- `DecisionRecord.stateSnapshot`. -/
structure StateSnapshot where
  halted : Bool
  availableBalance : Rat
  cooldown_until_ms : Rat
  hasOpenEntryOrder : Bool
  openOrders : Nat
  position : Option PositionState
deriving DecidableEq, Repr

/-- `DecisionRecord`. -/
structure DecisionRecord where
  symbol : String
  canonical_time_ms : Rat
  exchange_event_time_ms : Option Rat
  gate : GateResult
  actions : List DecisionAction
  stateSnapshot : StateSnapshot
deriving DecidableEq, Repr

/-- A metrics line as written by `logger.logMetrics` during `ingest`. -/
structure MetricsLogEntry where
  canonical_time_ms : Rat
  exchange_event_time_ms : Option Rat
  symbol : String
  gate : GateResult
  metrics : OrchestratorMetricsInput
deriving DecidableEq, Repr

/-- Orchestrator configuration relevant to the replay path. -/
structure ReplayConfig where
  gate : GateConfig
  cooldown : CooldownConfig
  deps : DecisionDeps
  executionSymbols : List String

/-- Orchestrator state touched by replay: the actor map (insertion-ordered,
as `getStateSnapshot` iterates it), the decision ledger and the metrics log
output. -/
structure ReplayOrchState where
  actors : List (String × ActorState)
  ledger : List DecisionRecord
  metricsLog : List MetricsLogEntry
deriving DecidableEq, Repr

/-- The empty orchestrator state (also the state after `resetForReplay`). -/
def emptyOrchState : ReplayOrchState := { actors := [], ledger := [], metricsLog := [] }

/-- `Orchestrator.getActor`: look the actor up, creating it on first use. -/
def getActorState (st : ReplayOrchState) (symbol : String) : ActorState :=
  match st.actors.find? (fun p => p.1 = symbol) with
  | some p => p.2
  | none => initialActorState symbol

/-- Store an actor back into the map (updating in place, appending if new). -/
def setActorState (st : ReplayOrchState) (symbol : String) (a : ActorState) :
    ReplayOrchState :=
  { st with actors :=
      if st.actors.any (fun p => p.1 = symbol) then
        st.actors.map (fun p => if p.1 = symbol then (symbol, a) else p)
      else
        st.actors ++ [(symbol, a)] }

/-- The snapshot taken for a decision record. -/
def snapshotOf (s : SymbolState) : StateSnapshot :=
  { halted := s.halted
    availableBalance := s.availableBalance
    cooldown_until_ms := s.cooldown_until_ms
    hasOpenEntryOrder := s.hasOpenEntryOrder
    openOrders := s.openOrders.length
    position := s.position }

/-- `SymbolActor.onMetrics`: cache `lastDeltaZ` / `lastPrintsPerSecond`
(JavaScript `x || 0`), evaluate, and produce the decision record. -/
def actorOnMetrics (deps : DecisionDeps) (a : ActorState) (symbol : String)
    (canonical_time_ms : Rat) (exchange_event_time_ms : Option Rat)
    (metrics : OrchestratorMetricsInput) (gate : GateResult) :
    ActorState × DecisionRecord :=
  let a1 := { a with
    lastDeltaZ := (metrics.legacyMetrics.bind (fun l => l.deltaZ)).getD 0
    lastPrintsPerSecond := metrics.prints_per_second.getD 0 }
  let actions := evaluate deps symbol canonical_time_ms gate metrics a1.state
  let record : DecisionRecord :=
    { symbol := symbol
      canonical_time_ms := canonical_time_ms
      exchange_event_time_ms := exchange_event_time_ms
      gate := gate
      actions := actions
      stateSnapshot := snapshotOf a1.state }
  (a1, record)

/-- `Orchestrator.enqueueMetrics` followed by the actor's synchronous
processing of the envelope. -/
def enqueueMetrics (cfg : ReplayConfig) (st : ReplayOrchState) (symbol : String)
    (canonical_time_ms : Rat) (exchange_event_time_ms : Option Rat)
    (metrics : OrchestratorMetricsInput) (gate : GateResult) (shouldLog : Bool) :
    ReplayOrchState :=
  let st1 :=
    if shouldLog then
      { st with metricsLog := st.metricsLog ++
          [{ canonical_time_ms := canonical_time_ms
             exchange_event_time_ms := exchange_event_time_ms
             symbol := symbol, gate := gate, metrics := metrics }] }
    else st
  let a := getActorState st1 symbol
  let ar := actorOnMetrics cfg.deps a symbol canonical_time_ms exchange_event_time_ms
    metrics gate
  let st2 := setActorState st1 symbol ar.1
  { st2 with ledger := st2.ledger ++ [ar.2] }

/-- The execution-symbols drop filter shared by the ingest entry points. -/
def symbolFiltered (cfg : ReplayConfig) (symbol : String) : Bool :=
  cfg.executionSymbols.length > 0 ∧ symbol ∉ cfg.executionSymbols

/-- `Orchestrator.ingest`: normalise the symbol, default the canonical time
to the wall clock, re-run the gate, log the metrics line, dispatch. -/
def orchIngest (cfg : ReplayConfig) (clock : Rat) (st : ReplayOrchState)
    (metrics : OrchestratorMetricsInput) : ReplayOrchState :=
  let symbol := jsToUpper metrics.symbol
  if symbolFiltered cfg symbol then st
  else
    let canonical := metrics.canonical_time_ms.getD clock
    let exch := metrics.exchange_event_time_ms
    let gate := runGate
      { canonical_time_ms := canonical, exchange_event_time_ms := exch, metrics := metrics }
      cfg.gate
    enqueueMetrics cfg st symbol canonical exch metrics gate true

/-- `Orchestrator.ingestLoggedMetrics`: trust the logged gate, do not re-log. -/
def orchIngestLogged (cfg : ReplayConfig) (st : ReplayOrchState) (symbol0 : String)
    (canonical_time_ms : Rat) (exchange_event_time_ms : Option Rat)
    (metrics : OrchestratorMetricsInput) (gate : GateResult) : ReplayOrchState :=
  let symbol := jsToUpper symbol0
  if symbolFiltered cfg symbol then st
  else enqueueMetrics cfg st symbol canonical_time_ms exchange_event_time_ms metrics gate false

/-- `Orchestrator.ingestExecutionReplay`. -/
def orchIngestExecution (cfg : ReplayConfig) (st : ReplayOrchState) (e : ExecutionEvent) :
    ReplayOrchState :=
  let symbol := jsToUpper (ExecutionEvent.sym e)
  if symbolFiltered cfg symbol then st
  else
    let a := getActorState st symbol
    setActorState st symbol (actorOnExecution cfg.cooldown a e)

/-- The `onDropSpike` callback installed by the orchestrator constructor:
send `SYSTEM_HALT` with reason `logger_drop_spike:<n>` to every live actor. -/
def onDropSpike (cfg : ReplayConfig) (dropCount : Nat) (clock : Rat)
    (st : ReplayOrchState) : ReplayOrchState × List ExecutionEvent :=
  let events := st.actors.map (fun p =>
    ExecutionEvent.SYSTEM_HALT
      { symbol := p.1, event_time_ms := clock
        reason := "logger_drop_spike:" ++ toString dropCount })
  (events.foldl (orchIngestExecution cfg) st, events)

/-- One firing of the logger's 10-second drop-spike timer. -/
def loggerTimerTick (logCfg : LoggerConfig) (cfg : ReplayConfig) (clock : Rat)
    (lg : LoggerState) (st : ReplayOrchState) :
    LoggerState × ReplayOrchState × List ExecutionEvent :=
  if lg.dropWindowCount ≥ logCfg.dropHaltThreshold then
    let r := onDropSpike cfg lg.dropWindowCount clock st
    ({ lg with dropWindowCount := 0 }, r.1, r.2)
  else
    ({ lg with dropWindowCount := 0 }, st, [])

/-! ### Replay runner (Replay.ts) -/

/-- A parsed metrics JSONL line.  `payload` is the line itself viewed as an
`OrchestratorMetricsInput` (its top-level fields); `metrics` and `gate` are
the nested `payload.metrics` / `payload.gate` objects when present. -/
structure MetricsLine where
  payload : OrchestratorMetricsInput
  event_time_ms : Option Rat
  metrics : Option OrchestratorMetricsInput
  gate : Option GateResult
deriving Repr

/-- A parsed execution JSONL line.  `event` is `payload.event ?? payload`
when that value has `type` and `symbol` fields, `none` otherwise. -/
structure ExecLine where
  event_time_ms : Option Rat
  event : Option ExecutionEvent
deriving Repr

/-- JavaScript `a || d` for an optional number: `none`, and the falsy value
`0`, fall through to the default. -/
def truthyOr (a : Option Rat) (d : Rat) : Rat :=
  match a with
  | some v => if v = 0 then d else v
  | none => d

/-- A merged replay item. -/
inductive MergedItem
  | metrics (m : MetricsLine)
  | execution (e : ExecLine)
deriving Repr

/-- The merge key: `Number(m.canonical_time_ms || m.event_time_ms || 0)` for
metrics lines, `Number(e.event_time_ms || 0)` for execution lines. -/
def itemKey : MergedItem → Rat
  | .metrics m => truthyOr m.payload.canonical_time_ms (truthyOr m.event_time_ms 0)
  | .execution e => truthyOr e.event_time_ms 0

/-- Insert an element after every element whose key is `≤` its key: the
insertion step of a stable sort. -/
def insortBy (key : α → Rat) (x : α) : List α → List α
  | [] => [x]
  | y :: ys => if key y ≤ key x then y :: insortBy key x ys else x :: y :: ys

/-- Stable sort by a rational key, modelling the stable
`Array.prototype.sort` used to merge the two replay streams. -/
def stableSortBy (key : α → Rat) (l : List α) : List α :=
  l.foldl (fun acc x => insortBy key x acc) []

/-- Dispatch of one merged item (the body of the `for` loop in
`replayFromFiles`). -/
def processItem (cfg : ReplayConfig) (clock : Rat) (st : ReplayOrchState) :
    MergedItem → ReplayOrchState
  | .metrics line =>
    match line.metrics, line.gate with
    | some mm, some g =>
      orchIngestLogged cfg st line.payload.symbol
        (truthyOr line.payload.canonical_time_ms (truthyOr line.event_time_ms 0))
        (match line.payload.exchange_event_time_ms with
         | some e => some e
         | none => mm.exchange_event_time_ms)
        mm g
    | _, _ => orchIngest cfg clock st line.payload
  | .execution e =>
    match e.event with
    | some ev => orchIngestExecution cfg st ev
    | none => st

/-- `ReplayRunner.replayFromFiles` on already-parsed lines: reset, merge by
event time with a stable sort, dispatch each item, and return the final
orchestrator state.  The two SHA-256 result hashes are fixed functions of
the decision ledger and the final actor states returned here (the canonical
serialization sorts object keys, so the map insertion order does not reach
the hash), hence equality of the hashes across runs reduces to equality of
these states. -/
def replayFromLines (cfg : ReplayConfig) (clock : Rat) (metricsLines : List MetricsLine)
    (execLines : List ExecLine) : ReplayOrchState :=
  let merged := stableSortBy itemKey
    (metricsLines.map MergedItem.metrics ++ execLines.map MergedItem.execution)
  merged.foldl (processItem cfg clock) emptyOrchState

/-! ### Concrete fixtures for the decision / cooldown / replay / logger claims -/

/-- Concrete decision dependencies: a venue quoting every market order at
price 100, 10 USDT initial margin, 5x leverage. -/
def cexDeps : DecisionDeps :=
  { expectedPrice := fun _ _ => some 100
    getInitialMarginUsdt := 10
    getMaxLeverage := 5 }

/-- V1 gate config of scenario S4. -/
def s4cfg : GateConfig :=
  { mode := .V1_NO_LATENCY, maxSpreadPct := 8 / 100, minObiDeep := 5 / 100, v2 := none }

/-- A passing gate result (S4 metrics under the S4 config). -/
def s4gate : GateResult :=
  runGate { canonical_time_ms := 0, exchange_event_time_ms := none, metrics := baseMetrics } s4cfg

/-- S6 legacy metrics: `delta_z = -3.5`, `cvd_slope = -0.6`. -/
def s6legacy : LegacyMetricsInput :=
  { obiDeep := some (3 / 10), deltaZ := some (-(7 / 2)), cvdSlope := some (-(3 / 5)) }

/-- S6 metrics envelope. -/
def s6metrics : OrchestratorMetricsInput :=
  { baseMetrics with legacyMetrics := some s6legacy }

/-- The S6 LONG position: flat pnl, no peak, no adds. -/
def s6position : PositionState :=
  { side := .LONG, qty := 1, entryPrice := 100, unrealizedPnlPct := 0
    addsUsed := 0, peakPnlPct := 0 }

/-- S6 state: a LONG position with no profit peak and clean execution. -/
def s6state : SymbolState :=
  { initialSymbolState "BTCUSDT" with position := some s6position }

/-- The C3 counterexample position: `peak = 1`, `unrealized = 0.5`, so the
profit-lock drawdown rule fires alongside the reversal rule. -/
def c3position : PositionState :=
  { side := .LONG, qty := 1, entryPrice := 100, unrealizedPnlPct := 1 / 2
    addsUsed := 0, peakPnlPct := 1 }

/-- C3 counterexample state. -/
def c3state : SymbolState :=
  { initialSymbolState "BTCUSDT" with position := some c3position }

/-- Actor about to be flattened: LONG position open, cached
`delta_z = 2, prints_per_second = 10`. -/
def c7actor : ActorState :=
  { state := { initialSymbolState "BTCUSDT" with position := some s6position }
    lastDeltaZ := 2
    lastPrintsPerSecond := 10 }

/-- ACCOUNT_UPDATE at t = 50000 reporting a flat position. -/
def c7event : AccountUpdateEvent :=
  { symbol := "BTCUSDT", event_time_ms := 50000, availableBalance := 1000
    walletBalance := 1000, positionAmt := 0, entryPrice := 0, unrealizedPnL := 0 }

/-- Default cooldown bounds (2 s .. 30 s). -/
def c7cfg : CooldownConfig := { minMs := 2000, maxMs := 30000 }

/-- Replay configuration with no execution-symbol restriction. -/
def cexReplayCfg : ReplayConfig :=
  { gate := s4cfg, cooldown := c7cfg, deps := cexDeps, executionSymbols := [] }

/-- An `OrchestratorMetricsInput` with every optional field absent. -/
def bareMetrics : OrchestratorMetricsInput :=
  { symbol := "BTCUSDT", canonical_time_ms := none, exchange_event_time_ms := none
    spread_pct := none, prints_per_second := none, best_bid := none, best_ask := none
    legacyMetrics := none }

/-- A metrics JSONL line with no logged gate and no `canonical_time_ms`: the
replay dispatch routes it through `ingest`, whose canonical-time fallback is
`Date.now()`. -/
def cexLine : MetricsLine :=
  { payload := bareMetrics, event_time_ms := none, metrics := none, gate := none }

/-- A metrics JSONL line that does carry `canonical_time_ms`. -/
def c4goodLine : MetricsLine :=
  { payload := { bareMetrics with canonical_time_ms := some 500 }
    event_time_ms := none, metrics := none, gate := none }

/-- Logger config with a small queue for the drop-halt witness. -/
def c8logCfg : LoggerConfig := { queueLimit := 2, dropHaltThreshold := 3 }

/-- A full logger queue whose drop window has already reached the threshold. -/
def c8logState : LoggerState :=
  { queue := [{ kind := .metrics, eventTimeMs := 1, payload := "a" },
              { kind := .decision, eventTimeMs := 2, payload := "b" }]
    dropCount := 7
    dropWindowCount := 3 }

/-- Two live actors for the drop-halt witness. -/
def c8orchState : ReplayOrchState :=
  { actors := [("BTCUSDT", initialActorState "BTCUSDT"),
               ("ETHUSDT", initialActorState "ETHUSDT")]
    ledger := []
    metricsLog := [] }

/-! ## Branch equations of `applyDepthUpdate` -/

theorem applyDepthUpdate_buffered_eq (s : OrderbookState) (d : DepthUpdate)
    (h : s.lastUpdateId = 0 ∨ s.uiState = .RESYNCING ∨ s.uiState = .UNSEEDED) :
    applyDepthUpdate s d =
      ({ s with
          buffer := if (s.buffer ++ [d]).length > 1000 then (s.buffer ++ [d]).tail
                    else s.buffer ++ [d]
          stats := { s.stats with buffered := s.stats.buffered + 1 } }, true) := by
  simp only [applyDepthUpdate]
  rw [if_pos h]

theorem applyDepthUpdate_dropped_eq (s : OrderbookState) (d : DepthUpdate)
    (h1 : ¬(s.lastUpdateId = 0 ∨ s.uiState = .RESYNCING ∨ s.uiState = .UNSEEDED))
    (h2 : d.u ≤ s.lastUpdateId) :
    applyDepthUpdate s d =
      ({ s with stats := { s.stats with dropped := s.stats.dropped + 1 } }, true) := by
  simp only [applyDepthUpdate]
  rw [if_neg h1, if_pos h2]

theorem applyDepthUpdate_applied_eq (s : OrderbookState) (d : DepthUpdate)
    (h1 : ¬(s.lastUpdateId = 0 ∨ s.uiState = .RESYNCING ∨ s.uiState = .UNSEEDED))
    (h2 : s.lastUpdateId + 1 ≤ d.u)
    (h3 : d.U - (s.lastUpdateId + 1) ≤ MAX_GAP_TOLERANCE) :
    applyDepthUpdate s d = (applyDelta s d, true) := by
  simp only [applyDepthUpdate]
  rw [if_neg h1, if_neg (by omega : ¬ d.u ≤ s.lastUpdateId)]
  by_cases hg : d.U - (s.lastUpdateId + 1) ≤ 0
  · rw [if_pos ⟨hg, h2⟩]
  · rw [if_neg (fun hc => hg hc.1), if_pos ⟨by omega, h3⟩]

theorem applyDepthUpdate_desync_eq (s : OrderbookState) (d : DepthUpdate)
    (h1 : ¬(s.lastUpdateId = 0 ∨ s.uiState = .RESYNCING ∨ s.uiState = .UNSEEDED))
    (h2 : s.lastUpdateId + 1 ≤ d.u)
    (h3 : MAX_GAP_TOLERANCE < d.U - (s.lastUpdateId + 1)) :
    applyDepthUpdate s d =
      ({ s with stats := { s.stats with desyncs := s.stats.desyncs + 1 } }, false) := by
  simp only [applyDepthUpdate]
  have hmax : MAX_GAP_TOLERANCE = 100 := rfl
  rw [if_neg h1, if_neg (by omega : ¬ d.u ≤ s.lastUpdateId),
    if_neg (by omega : ¬(d.U - (s.lastUpdateId + 1) ≤ 0 ∧ s.lastUpdateId + 1 ≤ d.u)),
    if_neg (by rw [hmax] at h3; omega :
      ¬(0 < d.U - (s.lastUpdateId + 1) ∧ d.U - (s.lastUpdateId + 1) ≤ MAX_GAP_TOLERANCE))]

theorem applyDelta_live_eq (s : OrderbookState) (d : DepthUpdate) (hLive : s.uiState = .LIVE) :
    applyDelta s d =
      { s with
        bids := applyEntries s.bids d.b
        asks := applyEntries s.asks d.a
        lastUpdateId := d.u
        stats := { s.stats with applied := s.stats.applied + 1 } } := by
  simp [applyDelta, hLive]

/-! ## Positivity helpers -/

theorem levelsPos_levelSet {m : List (Rat × Rat)} {p q : Rat}
    (hm : levelsPos m) (hq : 0 < q) : levelsPos (levelSet m p q) := by
  unfold levelSet
  split
  · intro e he
    obtain ⟨e0, he0, hrep⟩ := List.mem_map.mp he
    split at hrep
    · rw [← hrep]; exact hq
    · rw [← hrep]; exact hm e0 he0
  · intro e he
    rcases List.mem_append.mp he with h | h
    · exact hm e h
    · rw [List.mem_singleton.mp h]; exact hq

theorem levelsPos_levelDelete {m : List (Rat × Rat)} {p : Rat}
    (hm : levelsPos m) : levelsPos (levelDelete m p) := by
  intro e he
  exact hm e (List.mem_of_mem_filter he)

theorem levelsPos_applyEntries {es : List (Rat × Rat)} {m : List (Rat × Rat)}
    (hm : levelsPos m) (hes : ∀ e ∈ es, 0 ≤ e.2) : levelsPos (applyEntries m es) := by
  induction es generalizing m with
  | nil => exact hm
  | cons e es ih =>
    have hstep : levelsPos (if e.2 = 0 then levelDelete m e.1 else levelSet m e.1 e.2) := by
      split
      · exact levelsPos_levelDelete hm
      · next hne =>
        exact levelsPos_levelSet hm
          (lt_of_le_of_ne (hes e (List.mem_cons_self e es)) (Ne.symm hne))
    exact ih hstep (fun x hx => hes x (List.mem_cons_of_mem e hx))

theorem levelsPos_loadSide_aux (es : List (Rat × Rat)) (m : List (Rat × Rat))
    (hm : levelsPos m) :
    levelsPos (es.foldl (fun acc e => if e.2 > 0 then levelSet acc e.1 e.2 else acc) m) := by
  induction es generalizing m with
  | nil => exact hm
  | cons e es ih =>
    apply ih
    show levelsPos (if e.2 > 0 then levelSet m e.1 e.2 else m)
    split
    · next h => exact levelsPos_levelSet hm h
    · exact hm

theorem levelsPos_loadSide (es : List (Rat × Rat)) : levelsPos (loadSide es) :=
  levelsPos_loadSide_aux es [] (fun e he => absurd he (List.not_mem_nil e))

/-- `applySnapshot` as load-then-replay: the buffered diffs with
`u ≤ snap.lastUpdateId` are dropped and the rest are replayed through
`applyDepthUpdate` in arrival order. -/
theorem applySnapshot_eq (s : OrderbookState) (snap : DepthCache) :
    applySnapshot s snap =
      (s.buffer.filter (fun d => snap.lastUpdateId < d.u)).foldl
        (fun st d => (applyDepthUpdate st d).1)
        { s with
          bids := loadSide snap.bids
          asks := loadSide snap.asks
          lastUpdateId := snap.lastUpdateId
          uiState := .LIVE
          buffer := [] } := by
  simp only [applySnapshot, gt_iff_lt]
  split
  · rfl
  · next h =>
    have hbuf : s.buffer = [] := by
      simpa using List.eq_nil_of_length_eq_zero (by omega)
    rw [hbuf]
    rfl

theorem applyDepthUpdate_mono (s : OrderbookState) (d : DepthUpdate) :
    s.lastUpdateId ≤ ((applyDepthUpdate s d).1).lastUpdateId := by
  have hmax : MAX_GAP_TOLERANCE = 100 := rfl
  by_cases h1 : s.lastUpdateId = 0 ∨ s.uiState = .RESYNCING ∨ s.uiState = .UNSEEDED
  · rw [applyDepthUpdate_buffered_eq s d h1]
  · by_cases h2 : d.u ≤ s.lastUpdateId
    · rw [applyDepthUpdate_dropped_eq s d h1 h2]
    · by_cases h3 : d.U - (s.lastUpdateId + 1) ≤ MAX_GAP_TOLERANCE
      · rw [applyDepthUpdate_applied_eq s d h1 (by omega) h3]
        show s.lastUpdateId ≤ (applyDelta s d).lastUpdateId
        simp only [applyDelta]
        omega
      · rw [applyDepthUpdate_desync_eq s d h1 (by omega) (by omega)]

theorem applyDepthUpdate_preserves_pos (s : OrderbookState) (d : DepthUpdate)
    (hb : bookPos s) (hbuf : bufferNonneg s) (hd : diffNonneg d) :
    bookPos (applyDepthUpdate s d).1 ∧ bufferNonneg (applyDepthUpdate s d).1 := by
  by_cases h1 : s.lastUpdateId = 0 ∨ s.uiState = .RESYNCING ∨ s.uiState = .UNSEEDED
  · rw [applyDepthUpdate_buffered_eq s d h1]
    refine ⟨hb, ?_⟩
    intro x hx
    have hsub : (if (s.buffer ++ [d]).length > 1000 then (s.buffer ++ [d]).tail
        else s.buffer ++ [d]) ⊆ s.buffer ++ [d] := by
      split
      · exact List.tail_subset _
      · exact fun a ha => ha
    rcases List.mem_append.mp (hsub hx) with h | h
    · exact hbuf x h
    · rw [List.mem_singleton.mp h]; exact hd
  · by_cases h2 : d.u ≤ s.lastUpdateId
    · rw [applyDepthUpdate_dropped_eq s d h1 h2]
      exact ⟨hb, hbuf⟩
    · by_cases h3 : d.U - (s.lastUpdateId + 1) ≤ MAX_GAP_TOLERANCE
      · rw [applyDepthUpdate_applied_eq s d h1 (by omega) h3]
        exact ⟨⟨levelsPos_applyEntries hb.1 hd.1, levelsPos_applyEntries hb.2 hd.2⟩, hbuf⟩
      · rw [applyDepthUpdate_desync_eq s d h1 (by omega)
          (by have hmax : MAX_GAP_TOLERANCE = 100 := rfl; omega)]
        exact ⟨hb, hbuf⟩

theorem foldl_apply_preserves_pos (l : List DepthUpdate) (s : OrderbookState)
    (hb : bookPos s) (hbuf : bufferNonneg s) (hl : ∀ d ∈ l, diffNonneg d) :
    bookPos (l.foldl (fun st d => (applyDepthUpdate st d).1) s)
      ∧ bufferNonneg (l.foldl (fun st d => (applyDepthUpdate st d).1) s) := by
  induction l generalizing s with
  | nil => exact ⟨hb, hbuf⟩
  | cons d l ih =>
    have h := applyDepthUpdate_preserves_pos s d hb hbuf (hl d (List.mem_cons_self d l))
    exact ih _ h.1 h.2 (fun x hx => hl x (List.mem_cons_of_mem d hx))

theorem foldl_apply_mono (l : List DepthUpdate) (s : OrderbookState) :
    s.lastUpdateId ≤ (l.foldl (fun st d => (applyDepthUpdate st d).1) s).lastUpdateId := by
  induction l generalizing s with
  | nil => exact le_refl _
  | cons d l ih =>
    exact le_trans (applyDepthUpdate_mono s d) (ih _)

/-! ## Claim theorems: the order book -/

/-- Claim C1: on a seeded LIVE book, `applyDepthUpdate` (a) counts a diff
with `u ≤ last_update_id` as a benign drop and changes nothing else, (b)
applies every entry (size 0 deletes, any other size sets), sets
`last_update_id = u` and bumps `applied` whenever `u ≥ L+1` and the gap
`U − (L+1)` is at most the tolerance of 100 — covering both the in-sequence
and the tolerant-gap case — leaving `desyncs` unchanged, and (c) reports a
desync, bumps `desyncs` and leaves the levels and `last_update_id`
unchanged when the gap exceeds 100; in particular the S2 diff deletes the
ask at 11 and sets `last_update_id = 111` with `desyncs` unchanged, and the
S3 diff returns Desync leaving `last_update_id` at 101. -/
theorem C1_live_diff_application :
    (∀ (s : OrderbookState) (d : DepthUpdate), s.uiState = .LIVE → 0 < s.lastUpdateId →
      d.u ≤ s.lastUpdateId →
      applyDepthUpdate s d =
        ({ s with stats := { s.stats with dropped := s.stats.dropped + 1 } }, true))
    ∧
    (∀ (s : OrderbookState) (d : DepthUpdate), s.uiState = .LIVE → 0 < s.lastUpdateId →
      s.lastUpdateId + 1 ≤ d.u → d.U - (s.lastUpdateId + 1) ≤ 100 →
      applyDepthUpdate s d =
        ({ s with
            bids := applyEntries s.bids d.b
            asks := applyEntries s.asks d.a
            lastUpdateId := d.u
            stats := { s.stats with applied := s.stats.applied + 1 } }, true))
    ∧
    (∀ (s : OrderbookState) (d : DepthUpdate), s.uiState = .LIVE → 0 < s.lastUpdateId →
      s.lastUpdateId + 1 ≤ d.u → 100 < d.U - (s.lastUpdateId + 1) →
      applyDepthUpdate s d =
        ({ s with stats := { s.stats with desyncs := s.stats.desyncs + 1 } }, false))
    ∧
    ((applyDepthUpdate s1state diffS2).1.asks = []
      ∧ (applyDepthUpdate s1state diffS2).1.lastUpdateId = 111
      ∧ (applyDepthUpdate s1state diffS2).1.stats.desyncs = s1state.stats.desyncs
      ∧ (applyDepthUpdate s1state diffS2).1.stats.applied = s1state.stats.applied + 1
      ∧ (applyDepthUpdate s1state diffS2).2 = true)
    ∧
    ((applyDepthUpdate s1state diffS3).2 = false
      ∧ (applyDepthUpdate s1state diffS3).1.lastUpdateId = s1state.lastUpdateId
      ∧ (applyDepthUpdate s1state diffS3).1.stats.desyncs = s1state.stats.desyncs + 1
      ∧ (applyDepthUpdate s1state diffS3).1.bids = s1state.bids
      ∧ (applyDepthUpdate s1state diffS3).1.asks = s1state.asks) := by
  refine ⟨?_, ?_, ?_, by decide, by decide⟩
  · intro s d hL hP hU
    exact applyDepthUpdate_dropped_eq s d (by simp [hL]; omega) hU
  · intro s d hL hP hU hGap
    rw [applyDepthUpdate_applied_eq s d (by simp [hL]; omega) hU hGap,
      applyDelta_live_eq s d hL]
  · intro s d hL hP hU hGap
    exact applyDepthUpdate_desync_eq s d (by simp [hL]; omega) hU hGap

/-- Witness for C1: the tolerant-gap case (b) applied to the concrete S2
diff on the S1 state. -/
theorem C1_witness :
    applyDepthUpdate s1state diffS2 =
      ({ s1state with
          bids := applyEntries s1state.bids diffS2.b
          asks := applyEntries s1state.asks diffS2.a
          lastUpdateId := diffS2.u
          stats := { s1state.stats with applied := s1state.stats.applied + 1 } }, true) :=
  C1_live_diff_application.2.1 s1state diffS2 (by decide) (by decide) (by decide) (by decide)

/-- Claim C5: on an UNSEEDED or RESYNCING book `applyDepthUpdate` buffers
the diff (capacity 1000, oldest dropped on overflow), bumps `buffered` and
touches nothing else; `applySnapshot` clears both sides, loads only
positive-size snapshot levels, sets `last_update_id` to the snapshot id,
goes LIVE, and replays the buffer dropping diffs with
`u ≤ last_update_id` and feeding the rest to `applyDepthUpdate` in arrival
order; and scenario S1 ends with bid size 2 at 10, `last_update_id = 101`
and a LIVE book. -/
theorem C5_buffering_and_snapshot :
    (∀ (s : OrderbookState) (d : DepthUpdate),
      s.uiState = .UNSEEDED ∨ s.uiState = .RESYNCING →
      applyDepthUpdate s d =
        ({ s with
            buffer := if (s.buffer ++ [d]).length > 1000 then (s.buffer ++ [d]).tail
                      else s.buffer ++ [d]
            stats := { s.stats with buffered := s.stats.buffered + 1 } }, true))
    ∧ (∀ es, levelsPos (loadSide es))
    ∧ (∀ (s : OrderbookState) (snap : DepthCache),
        applySnapshot s snap =
          (s.buffer.filter (fun d => snap.lastUpdateId < d.u)).foldl
            (fun st d => (applyDepthUpdate st d).1)
            { s with
              bids := loadSide snap.bids
              asks := loadSide snap.asks
              lastUpdateId := snap.lastUpdateId
              uiState := .LIVE
              buffer := [] })
    ∧ (s1state.bids = [(10, 2)] ∧ s1state.asks = [(11, 1)] ∧ s1state.lastUpdateId = 101
        ∧ s1state.uiState = .LIVE) := by
  refine ⟨?_, levelsPos_loadSide, applySnapshot_eq, by decide⟩
  intro s d h
  apply applyDepthUpdate_buffered_eq
  rcases h with h | h
  · exact Or.inr (Or.inr h)
  · exact Or.inr (Or.inl h)

/-- Witness for C5: buffering a diff on the fresh UNSEEDED book. -/
theorem C5_witness :
    applyDepthUpdate createOrderbookState diffS1 =
      ({ createOrderbookState with
          buffer := if (createOrderbookState.buffer ++ [diffS1]).length > 1000 then
                      (createOrderbookState.buffer ++ [diffS1]).tail
                    else createOrderbookState.buffer ++ [diffS1]
          stats := { createOrderbookState.stats with
                     buffered := createOrderbookState.stats.buffered + 1 } }, true) :=
  C5_buffering_and_snapshot.1 createOrderbookState diffS1 (Or.inl (by decide))

/-- Counterexample for C9 as stated: `applySnapshot` is also claimed to
never decrease `last_update_id`, but applying a snapshot with
`lastUpdateId = 100` to a LIVE book at sequence 500 lowers it to 100. -/
theorem C9_counterexample :
    (applySnapshot cexBook cexSnap).lastUpdateId < cexBook.lastUpdateId := by decide

/-- Claim C9 (amended): `last_update_id` never decreases under
`applyDepthUpdate` (applied diffs raise it to `u`, buffered / dropped /
desync outcomes leave it unchanged), while `applySnapshot` re-bases it at
the snapshot id (from which the buffer replay can only raise it) and may
therefore lower it; and, under the precondition that every wire size parses
non-negative, both operations preserve the absence of levels with
size ≤ 0. -/
theorem C9_amended_invariants :
    (∀ (s : OrderbookState) (d : DepthUpdate),
      s.lastUpdateId ≤ ((applyDepthUpdate s d).1).lastUpdateId)
    ∧ (∀ (s : OrderbookState) (d : DepthUpdate), bookPos s → bufferNonneg s → diffNonneg d →
        bookPos (applyDepthUpdate s d).1 ∧ bufferNonneg (applyDepthUpdate s d).1)
    ∧ (∀ (s : OrderbookState) (snap : DepthCache), bufferNonneg s →
        bookPos (applySnapshot s snap) ∧ bufferNonneg (applySnapshot s snap))
    ∧ (∀ (s : OrderbookState) (snap : DepthCache),
        snap.lastUpdateId ≤ (applySnapshot s snap).lastUpdateId) := by
  refine ⟨applyDepthUpdate_mono, applyDepthUpdate_preserves_pos, ?_, ?_⟩
  · intro s snap hbuf
    rw [applySnapshot_eq]
    apply foldl_apply_preserves_pos
    · exact ⟨levelsPos_loadSide snap.bids, levelsPos_loadSide snap.asks⟩
    · intro d hd
      exact absurd hd (List.not_mem_nil d)
    · intro d hd
      exact hbuf d (List.mem_of_mem_filter hd)
  · intro s snap
    rw [applySnapshot_eq]
    exact foldl_apply_mono _ _

/-- Witness for C9 (amended): positivity is preserved when the S2 diff hits
the S1 state. -/
theorem C9_book_witness :
    bookPos (applyDepthUpdate s1state diffS2).1
      ∧ bufferNonneg (applyDepthUpdate s1state diffS2).1 := by
  apply C9_amended_invariants.2.1 s1state diffS2
  · constructor
    · intro e he
      rw [show s1state.bids = [(10, 2)] from by decide] at he
      fin_cases he
      norm_num
    · intro e he
      rw [show s1state.asks = [(11, 1)] from by decide] at he
      fin_cases he
      norm_num
  · intro d hd
    rw [show s1state.buffer = [] from by decide] at hd
    exact absurd hd (List.not_mem_nil d)
  · constructor
    · intro e he
      exact absurd he (List.not_mem_nil e)
    · intro e he
      rw [show diffS2.a = [(11, 0)] from rfl] at he
      fin_cases he
      norm_num

/-! ## Gate lemmas and claim theorems -/

theorem runGate_missing (input : RunGateInput) (cfg : GateConfig)
    (h : hasRequired input.metrics = false) :
    runGate input cfg =
      { mode := cfg.mode
        passed := false
        reason := some .missing_metrics
        network_latency_ms := none
        checks :=
          { hasRequiredMetrics := false
            spreadOk := false
            obiDeepOk := false
            networkLatencyOk := if cfg.mode = .V2_NETWORK_LATENCY then some false
                                else none } } := by
  simp only [runGate]
  rw [if_pos h]

theorem runGate_present (input : RunGateInput) (cfg : GateConfig)
    (h : hasRequired input.metrics = true) :
    runGate input cfg =
      { mode := cfg.mode
        passed := (if gateSpreadOk input cfg = false then some GateReason.spread_too_wide
                   else if gateObiOk input cfg = false then some .insufficient_liquidity
                   else if cfg.mode = .V2_NETWORK_LATENCY ∧ gateNetOkB input cfg = false then
                     some .network_latency_too_high
                   else none).isNone
        reason := if gateSpreadOk input cfg = false then some .spread_too_wide
                  else if gateObiOk input cfg = false then some .insufficient_liquidity
                  else if cfg.mode = .V2_NETWORK_LATENCY ∧ gateNetOkB input cfg = false then
                    some .network_latency_too_high
                  else none
        network_latency_ms := if cfg.mode = .V2_NETWORK_LATENCY then gateNetLat input
                              else none
        checks :=
          { hasRequiredMetrics := true
            spreadOk := gateSpreadOk input cfg
            obiDeepOk := gateObiOk input cfg
            networkLatencyOk := if cfg.mode = .V2_NETWORK_LATENCY then
                                  some (gateNetOkB input cfg)
                                else none } } := by
  simp only [runGate]
  rw [if_neg (by simp [h])]

theorem gateSpreadOk_iff (input : RunGateInput) (cfg : GateConfig) :
    gateSpreadOk input cfg = true ↔ input.metrics.spread_pct.getD 0 ≤ cfg.maxSpreadPct := by
  simp [gateSpreadOk]

theorem gateObiOk_iff (input : RunGateInput) (cfg : GateConfig) :
    gateObiOk input cfg = true ↔
      cfg.minObiDeep ≤ |(input.metrics.legacyMetrics.bind (fun l => l.obiDeep)).getD 0| := by
  simp [gateObiOk]

theorem gateNetOkB_some (input : RunGateInput) (cfg : GateConfig) (v : V2Config)
    (hv : cfg.v2 = some v) :
    gateNetOkB input cfg = true ↔
      ∃ e, input.exchange_event_time_ms = some e
        ∧ max 0 (input.canonical_time_ms - e) ≤ v.maxNetworkLatencyMs := by
  unfold gateNetOkB gateNetLat
  rw [hv]
  cases hE : input.exchange_event_time_ms with
  | none => simp
  | some e => simp

/-- `passed` as a conjunction of the three boolean checks. -/
theorem runGate_passed_iff (input : RunGateInput) (cfg : GateConfig) :
    ((runGate input cfg).passed = true ↔
      (hasRequired input.metrics = true ∧ gateSpreadOk input cfg = true
        ∧ gateObiOk input cfg = true
        ∧ (cfg.mode = .V2_NETWORK_LATENCY → gateNetOkB input cfg = true))) := by
  by_cases hreq : hasRequired input.metrics = true
  · rw [runGate_present input cfg hreq]
    cases hS : gateSpreadOk input cfg
      <;> cases hO : gateObiOk input cfg
      <;> cases hB : gateNetOkB input cfg
      <;> cases hm : cfg.mode
      <;> simp_all
  · rw [runGate_missing input cfg (by simpa using hreq)]
    simp_all

/-- Claim C2: `runGate` in V1 passes iff the five required metrics are
finite, the spread is within bound and `|obi_deep|` meets the floor, always
reporting a null latency; V2 additionally requires
`max(0, canonical − exchange) ≤ max_network_latency_ms`; failure reasons
follow the priority missing_metrics > spread_too_wide >
insufficient_liquidity > network_latency_too_high; and the S5 input yields
`passed = false, reason = network_latency_too_high,
network_latency_ms = 1999`. -/
theorem C2_gate_modes :
    (∀ (input : RunGateInput) (cfg : GateConfig), cfg.mode = .V1_NO_LATENCY →
      ((runGate input cfg).passed = true ↔
        (hasRequired input.metrics = true
          ∧ input.metrics.spread_pct.getD 0 ≤ cfg.maxSpreadPct
          ∧ cfg.minObiDeep ≤ |(input.metrics.legacyMetrics.bind (fun l => l.obiDeep)).getD 0|))
      ∧ (runGate input cfg).network_latency_ms = none)
    ∧
    (∀ (input : RunGateInput) (cfg : GateConfig) (v : V2Config),
      cfg.mode = .V2_NETWORK_LATENCY → cfg.v2 = some v →
      ((runGate input cfg).passed = true ↔
        (hasRequired input.metrics = true
          ∧ input.metrics.spread_pct.getD 0 ≤ cfg.maxSpreadPct
          ∧ cfg.minObiDeep ≤ |(input.metrics.legacyMetrics.bind (fun l => l.obiDeep)).getD 0|
          ∧ ∃ e, input.exchange_event_time_ms = some e
              ∧ max 0 (input.canonical_time_ms - e) ≤ v.maxNetworkLatencyMs)))
    ∧
    (∀ (input : RunGateInput) (cfg : GateConfig), hasRequired input.metrics = false →
      (runGate input cfg).reason = some .missing_metrics)
    ∧
    (∀ (input : RunGateInput) (cfg : GateConfig), hasRequired input.metrics = true →
      ¬ input.metrics.spread_pct.getD 0 ≤ cfg.maxSpreadPct →
      (runGate input cfg).reason = some .spread_too_wide)
    ∧
    (∀ (input : RunGateInput) (cfg : GateConfig), hasRequired input.metrics = true →
      input.metrics.spread_pct.getD 0 ≤ cfg.maxSpreadPct →
      ¬ cfg.minObiDeep ≤ |(input.metrics.legacyMetrics.bind (fun l => l.obiDeep)).getD 0| →
      (runGate input cfg).reason = some .insufficient_liquidity)
    ∧
    (∀ (input : RunGateInput) (cfg : GateConfig), hasRequired input.metrics = true →
      input.metrics.spread_pct.getD 0 ≤ cfg.maxSpreadPct →
      cfg.minObiDeep ≤ |(input.metrics.legacyMetrics.bind (fun l => l.obiDeep)).getD 0| →
      cfg.mode = .V2_NETWORK_LATENCY → gateNetOkB input cfg = false →
      (runGate input cfg).reason = some .network_latency_too_high)
    ∧
    ((runGate s5input s5cfg).passed = false
      ∧ (runGate s5input s5cfg).reason = some .network_latency_too_high
      ∧ (runGate s5input s5cfg).network_latency_ms = some 1999) := by
  refine ⟨?_, ?_, ?_, ?_, ?_, ?_, by decide⟩
  · intro input cfg hm
    constructor
    · rw [runGate_passed_iff input cfg, hm]
      simp [gateSpreadOk_iff, gateObiOk_iff]
    · by_cases hreq : hasRequired input.metrics = true
      · rw [runGate_present input cfg hreq, hm]
        simp
      · rw [runGate_missing input cfg (by simpa using hreq)]
  · intro input cfg v hm hv
    rw [runGate_passed_iff input cfg, hm]
    simp [gateSpreadOk_iff, gateObiOk_iff, gateNetOkB_some input cfg v hv]
  · intro input cfg hreq
    rw [runGate_missing input cfg hreq]
  · intro input cfg hreq h1
    rw [runGate_present input cfg hreq]
    simp only [show gateSpreadOk input cfg = false from by simp [gateSpreadOk, h1]]
    simp
  · intro input cfg hreq h1 h2
    rw [runGate_present input cfg hreq]
    simp only [show gateSpreadOk input cfg = true from by simp [gateSpreadOk, h1],
      show gateObiOk input cfg = false from by simp [gateObiOk, h2]]
    simp
  · intro input cfg hreq h1 h2 hm hnet
    rw [runGate_present input cfg hreq, hm]
    simp only [show gateSpreadOk input cfg = true from by simp [gateSpreadOk, h1],
      show gateObiOk input cfg = true from by simp [gateObiOk, h2], hnet]
    simp

/-- Witness for C2: the spread-priority conjunct evaluated on the concrete
wide-spread input. -/
theorem C2_witness : (runGate c10input s5cfg).reason = some GateReason.spread_too_wide :=
  C2_gate_modes.2.2.2.1 c10input s5cfg (by decide) (by decide)

/-- Counterexample for C10 as stated: with all five required metrics finite
and a null exchange event time, the reason is not always
`network_latency_too_high` — a too-wide spread takes priority. -/
theorem C10_counterexample :
    hasRequired c10input.metrics = true
      ∧ c10input.exchange_event_time_ms = none
      ∧ s5cfg.mode = GateMode.V2_NETWORK_LATENCY
      ∧ (runGate c10input s5cfg).passed = false
      ∧ (runGate c10input s5cfg).reason = some GateReason.spread_too_wide
      ∧ ¬ (runGate c10input s5cfg).reason = some GateReason.network_latency_too_high := by
  decide

/-- Claim C10 (amended): in V2 mode, an envelope with all five required
metrics finite but a null exchange event time always gets
`network_latency_ms = null`, a failed latency check and `passed = false`
(not missing_metrics); its reason is `network_latency_too_high` provided
the spread and liquidity checks pass, which take priority otherwise. -/
theorem C10_null_exchange_fails_latency :
    ∀ (input : RunGateInput) (cfg : GateConfig),
      cfg.mode = .V2_NETWORK_LATENCY →
      hasRequired input.metrics = true →
      input.exchange_event_time_ms = none →
      (runGate input cfg).network_latency_ms = none
        ∧ (runGate input cfg).checks.networkLatencyOk = some false
        ∧ (runGate input cfg).passed = false
        ∧ (runGate input cfg).reason ≠ some .missing_metrics
        ∧ (input.metrics.spread_pct.getD 0 ≤ cfg.maxSpreadPct →
            cfg.minObiDeep ≤ |(input.metrics.legacyMetrics.bind (fun l => l.obiDeep)).getD 0| →
            (runGate input cfg).reason = some .network_latency_too_high) := by
  intro input cfg hm hreq hE
  rw [runGate_present input cfg hreq, hm]
  have hnet : gateNetOkB input cfg = false := by
    simp [gateNetOkB, gateNetLat, hE]
  refine ⟨by simp [gateNetLat, hE], by simp [hnet], ?_, ?_, ?_⟩
  · cases hS : gateSpreadOk input cfg
      <;> cases hO : gateObiOk input cfg
      <;> simp [hS, hO, hnet]
  · cases hS : gateSpreadOk input cfg
      <;> cases hO : gateObiOk input cfg
      <;> simp [hS, hO, hnet]
  · intro h1 h2
    simp only [show gateSpreadOk input cfg = true from by simp [gateSpreadOk, h1],
      show gateObiOk input cfg = true from by simp [gateObiOk, h2], hnet]
    simp

/-- Witness for C10 (amended): the S4 metrics with a null exchange time in
V2 mode. -/
theorem C10_witness :
    (runGate c10okInput s5cfg).network_latency_ms = none
      ∧ (runGate c10okInput s5cfg).checks.networkLatencyOk = some false
      ∧ (runGate c10okInput s5cfg).passed = false
      ∧ (runGate c10okInput s5cfg).reason ≠ some GateReason.missing_metrics
      ∧ (runGate c10okInput s5cfg).reason = some GateReason.network_latency_too_high := by
  have h := C10_null_exchange_fails_latency c10okInput s5cfg (by decide) (by decide) (by decide)
  exact ⟨h.1, h.2.1, h.2.2.1, h.2.2.2.1, h.2.2.2.2 (by decide) (by decide)⟩

/-! ## Decision-engine claim theorems -/

/-- Counterexample for C3 as stated: with a passing gate and an open LONG
position whose profit-lock rule and reversal rule both match, `evaluate`
emits two EXIT_MARKET actions, not at most one chosen first-match-wins. -/
theorem C3_counterexample :
    ((evaluate cexDeps "BTCUSDT" 1000 s4gate s6metrics c3state).filter
      (fun a => a.type = DecisionActionType.EXIT_MARKET)).length = 2
      ∧ s4gate.passed = true
      ∧ (c3state.position.map (fun p => p.side) = some PosSide.LONG) := by
  decide

/-- The cooldown-gated entry rule: with a flat position and an event time
inside the cooldown window, `evaluate` never emits an ENTRY_PROBE. -/
theorem evaluate_no_probe_in_cooldown (deps : DecisionDeps) (symbol : String) (t : Rat)
    (gate : GateResult) (metrics : OrchestratorMetricsInput) (state : SymbolState)
    (hpos : state.position = none) (hcd : t < state.cooldown_until_ms) :
    ∀ act ∈ evaluate deps symbol t gate metrics state,
      act.type ≠ DecisionActionType.ENTRY_PROBE := by
  intro act hmem
  unfold evaluate at hmem
  by_cases hg : gate.passed = false
  · rw [if_pos hg] at hmem
    rw [List.mem_singleton.mp hmem]
    simp [mkNoop]
  · rw [if_neg hg, hpos] at hmem
    dsimp only at hmem
    have hdec : decide (t < state.cooldown_until_ms) = true := by simp [hcd]
    rw [hdec] at hmem
    simp only [Bool.true_eq_false, and_false, if_false] at hmem
    repeat' split at hmem
    all_goals
      first
        | exact absurd hmem (List.not_mem_nil act)
        | (rw [List.mem_singleton.mp hmem]; simp [mkNoop])

/-- A member of a list is a member of the `actions.length > 0 ? actions :
[NOOP]` coercion of that list. -/
theorem mem_ite_length {α : Type} {x : α} {l l2 : List α} (h : x ∈ l) :
    x ∈ (if l.length > 0 then l else l2) := by
  rw [if_pos (List.length_pos_of_mem h)]
  exact h

/-- Claim C3 (amended): every matching terminal exit rule emits its own
EXIT_MARKET (profit-lock, reversal, emergency, in rule order), so more than
one can be emitted in a single evaluation; the reversal rule for a LONG
position is `delta_z < −3 ∧ cvd_slope < −0.5` and emits
`EXIT_MARKET(side=SELL, reduceOnly=true, reason=reversal_exit_long)`, with
the SHORT case symmetric; and in the S6 scenario, where only the reversal
rule matches, exactly that one action is emitted. -/
theorem C3_reversal_exit :
    (∀ (deps : DecisionDeps) (symbol : String) (t : Rat) (gate : GateResult)
        (metrics : OrchestratorMetricsInput) (state : SymbolState) (pos : PositionState),
      gate.passed = true → state.position = some pos → pos.side = .LONG →
      jsLT (metrics.legacyMetrics.bind (fun l => l.deltaZ)) (-3) = true →
      jsLT (metrics.legacyMetrics.bind (fun l => l.cvdSlope)) (-(1 / 2)) = true →
      exitAction deps symbol t .SELL "reversal_exit_long"
        ∈ evaluate deps symbol t gate metrics state)
    ∧
    (∀ (deps : DecisionDeps) (symbol : String) (t : Rat) (gate : GateResult)
        (metrics : OrchestratorMetricsInput) (state : SymbolState) (pos : PositionState),
      gate.passed = true → state.position = some pos → pos.side = .SHORT →
      jsGT (metrics.legacyMetrics.bind (fun l => l.deltaZ)) 3 = true →
      jsGT (metrics.legacyMetrics.bind (fun l => l.cvdSlope)) (1 / 2) = true →
      exitAction deps symbol t .BUY "reversal_exit_short"
        ∈ evaluate deps symbol t gate metrics state)
    ∧
    evaluate cexDeps "BTCUSDT" 1000 s4gate s6metrics s6state =
      [{ type := .EXIT_MARKET, symbol := "BTCUSDT", event_time_ms := 1000
         side := some .SELL, quantity := none, reduceOnly := some true
         reason := "reversal_exit_long", expectedPrice := some 100
         targetMarginUsdt := none, targetNotionalUsdt := none }] := by
  refine ⟨?_, ?_, by decide⟩
  · intro deps symbol t gate metrics state pos hg hpos hside hdz hcv
    unfold evaluate
    rw [if_neg (by simp [hg]), hpos]
    dsimp only
    rw [if_pos (⟨hside, hdz, hcv⟩ :
      pos.side = PosSide.LONG
        ∧ jsLT (metrics.legacyMetrics.bind (fun l => l.deltaZ)) (-3) = true
        ∧ jsLT (metrics.legacyMetrics.bind (fun l => l.cvdSlope)) (-(1 / 2)) = true)]
    apply mem_ite_length
    apply List.mem_append_left
    apply List.mem_append_left
    apply List.mem_append_left
    apply List.mem_append_right
    exact List.mem_singleton_self _
  · intro deps symbol t gate metrics state pos hg hpos hside hdz hcv
    unfold evaluate
    rw [if_neg (by simp [hg]), hpos]
    dsimp only
    rw [if_pos (⟨hside, hdz, hcv⟩ :
      pos.side = PosSide.SHORT
        ∧ jsGT (metrics.legacyMetrics.bind (fun l => l.deltaZ)) 3 = true
        ∧ jsGT (metrics.legacyMetrics.bind (fun l => l.cvdSlope)) (1 / 2) = true)]
    apply mem_ite_length
    apply List.mem_append_left
    apply List.mem_append_left
    apply List.mem_append_right
    exact List.mem_singleton_self _

/-- Witness for C3 (amended): the LONG reversal membership on the concrete
S6 inputs. -/
theorem C3_witness :
    exitAction cexDeps "BTCUSDT" 1000 OrderSide.SELL "reversal_exit_long"
      ∈ evaluate cexDeps "BTCUSDT" 1000 s4gate s6metrics s6state :=
  C3_reversal_exit.1 cexDeps "BTCUSDT" 1000 s4gate s6metrics s6state s6position
    (by decide) (by decide) (by decide) (by decide) (by decide)

/-- Claim C7: an ACCOUNT_UPDATE that flattens an open position stamps
`cooldown_until_ms = t + clamp(round(200·(|Δz| + pps/10)), min, max)` from
the cached `lastDeltaZ` / `lastPrintsPerSecond`; a metrics envelope of a
flat symbol inside the cooldown window yields no ENTRY_PROBE; hence any
ENTRY_PROBE emitted while flat has event time at least `cooldown_until_ms`,
i.e. at least `t` plus the clamped cooldown; and the caches are refreshed
from each metrics envelope. -/
theorem C7_cooldown_law :
    (∀ (cfg : CooldownConfig) (a : ActorState) (e : AccountUpdateEvent),
      a.state.position.isSome = true → e.positionAmt = 0 →
      (onAccountUpdate cfg a e).state.cooldown_until_ms =
        e.event_time_ms +
          max cfg.minMs (min cfg.maxMs
            ((round ((200 : Rat) * (|a.lastDeltaZ| + a.lastPrintsPerSecond / 10)) : Int) : Rat))
        ∧ (onAccountUpdate cfg a e).state.position = none
        ∧ (onAccountUpdate cfg a e).state.last_exit_event_time_ms = e.event_time_ms)
    ∧
    (∀ (deps : DecisionDeps) (symbol : String) (t : Rat) (gate : GateResult)
        (metrics : OrchestratorMetricsInput) (state : SymbolState),
      state.position = none → t < state.cooldown_until_ms →
      ∀ act ∈ evaluate deps symbol t gate metrics state,
        act.type ≠ DecisionActionType.ENTRY_PROBE)
    ∧
    (∀ (deps : DecisionDeps) (symbol : String) (t : Rat) (gate : GateResult)
        (metrics : OrchestratorMetricsInput) (state : SymbolState),
      state.position = none →
      (∃ act ∈ evaluate deps symbol t gate metrics state,
        act.type = DecisionActionType.ENTRY_PROBE) →
      state.cooldown_until_ms ≤ t)
    ∧
    (∀ (deps : DecisionDeps) (a : ActorState) (symbol : String) (c : Rat)
        (exch : Option Rat) (metrics : OrchestratorMetricsInput) (gate : GateResult),
      (actorOnMetrics deps a symbol c exch metrics gate).1.lastDeltaZ =
          (metrics.legacyMetrics.bind (fun l => l.deltaZ)).getD 0
        ∧ (actorOnMetrics deps a symbol c exch metrics gate).1.lastPrintsPerSecond =
            metrics.prints_per_second.getD 0) := by
  refine ⟨?_, evaluate_no_probe_in_cooldown, ?_, fun _ _ _ _ _ _ _ => ⟨rfl, rfl⟩⟩
  · intro cfg a e hpos hamt
    unfold onAccountUpdate
    simp only [hamt, abs_zero, reduceIte, hpos, computeCooldownMs]
    exact ⟨rfl, rfl, rfl⟩
  · intro deps symbol t gate metrics state hpos hex
    by_contra hlt
    push_neg at hlt
    obtain ⟨act, hmem, htype⟩ := hex
    exact absurd htype
      (evaluate_no_probe_in_cooldown deps symbol t gate metrics state hpos hlt act hmem)

/-- Witness for C7: flattening the concrete LONG actor at t = 50000 with
cached `Δz = 2, pps = 10` yields `cooldown_until_ms = 52000`. -/
theorem C7_witness :
    (onAccountUpdate c7cfg c7actor c7event).state.cooldown_until_ms =
        c7event.event_time_ms +
          max c7cfg.minMs (min c7cfg.maxMs
            ((round ((200 : Rat) * (|c7actor.lastDeltaZ| + c7actor.lastPrintsPerSecond / 10)) :
              Int) : Rat))
      ∧ (onAccountUpdate c7cfg c7actor c7event).state.position = none
      ∧ (onAccountUpdate c7cfg c7actor c7event).state.last_exit_event_time_ms =
          c7event.event_time_ms :=
  C7_cooldown_law.1 c7cfg c7actor c7event (by decide) (by decide)

/-! ## Logger drop-halt lemmas -/

/-- Every actor entry with the given key is halted. -/
def haltedAt (st : ReplayOrchState) (k : String) : Prop :=
  ∀ p ∈ st.actors, p.1 = k → p.2.state.halted = true

/-- A `SYSTEM_HALT` dispatch leaves every actor entry either halted or
exactly as it was. -/
theorem haltStep_mem (cfg : ReplayConfig) (st : ReplayOrchState) (e : SystemSignalEvent)
    (p : String × ActorState)
    (hp : p ∈ (orchIngestExecution cfg st (.SYSTEM_HALT e)).actors) :
    p.2.state.halted = true ∨ p ∈ st.actors := by
  unfold orchIngestExecution at hp
  dsimp only at hp
  split at hp
  · exact Or.inr hp
  · unfold setActorState at hp
    split at hp
    · obtain ⟨q, hq, hrep⟩ := List.mem_map.mp hp
      split at hrep
      · rw [← hrep]
        exact Or.inl rfl
      · rw [← hrep]
        exact Or.inr hq
    · rcases List.mem_append.mp hp with h | h
      · exact Or.inr h
      · rw [List.mem_singleton.mp h]
        exact Or.inl rfl

theorem haltStep_haltedAt_mono (cfg : ReplayConfig) (st : ReplayOrchState)
    (e : SystemSignalEvent) (k : String) (h : haltedAt st k) :
    haltedAt (orchIngestExecution cfg st (.SYSTEM_HALT e)) k := by
  intro p hp hk
  rcases haltStep_mem cfg st e p hp with h1 | h1
  · exact h1
  · exact h p h1 hk

/-- A `SYSTEM_HALT` for an unfiltered, uppercase-normal symbol halts every
actor entry with that key. -/
theorem haltStep_haltedAt_self (cfg : ReplayConfig) (st : ReplayOrchState)
    (e : SystemSignalEvent)
    (hfilter : symbolFiltered cfg e.symbol = false)
    (hupper : jsToUpper e.symbol = e.symbol) :
    haltedAt (orchIngestExecution cfg st (.SYSTEM_HALT e)) e.symbol := by
  intro p hp hk
  unfold orchIngestExecution at hp
  rw [show ExecutionEvent.sym (.SYSTEM_HALT e) = e.symbol from rfl, hupper] at hp
  rw [if_neg (by simp [hfilter])] at hp
  unfold setActorState at hp
  split at hp
  · obtain ⟨q, hq, hrep⟩ := List.mem_map.mp hp
    split at hrep
    · rw [← hrep]
      rfl
    · next hqk =>
      rw [← hrep] at hk
      exact absurd hk hqk
  · next hany =>
    rcases List.mem_append.mp hp with h | h
    · exfalso
      apply hany
      exact List.any_eq_true.mpr ⟨p, h, by simp [hk]⟩
    · rw [List.mem_singleton.mp h]
      rfl

/-- Folding further `SYSTEM_HALT` dispatches preserves `haltedAt`. -/
theorem haltFold_mono (cfg : ReplayConfig) (clock : Rat) (reason : String)
    (ks : List (String × ActorState)) (st : ReplayOrchState) (k : String)
    (h : haltedAt st k) :
    haltedAt (ks.foldl (fun s q => orchIngestExecution cfg s
      (.SYSTEM_HALT { symbol := q.1, event_time_ms := clock, reason := reason })) st) k := by
  induction ks generalizing st with
  | nil => exact h
  | cons q ks ih => exact ih _ (haltStep_haltedAt_mono cfg st _ k h)

/-- After folding one `SYSTEM_HALT` per key over the actor map, every entry
is halted or was untouched with a key outside the folded list. -/
theorem haltFold_all (cfg : ReplayConfig) (clock : Rat) (reason : String)
    (ks : List (String × ActorState)) (st : ReplayOrchState)
    (hf : ∀ q ∈ ks, symbolFiltered cfg q.1 = false)
    (hu : ∀ q ∈ ks, jsToUpper q.1 = q.1) :
    ∀ p ∈ (ks.foldl (fun s q => orchIngestExecution cfg s
        (.SYSTEM_HALT { symbol := q.1, event_time_ms := clock, reason := reason })) st).actors,
      p.2.state.halted = true ∨ (p ∈ st.actors ∧ p.1 ∉ ks.map (fun q => q.1)) := by
  induction ks generalizing st with
  | nil =>
    intro p hp
    exact Or.inr ⟨hp, List.not_mem_nil _⟩
  | cons q ks ih =>
    intro p hp
    rcases ih (orchIngestExecution cfg st
        (.SYSTEM_HALT { symbol := q.1, event_time_ms := clock, reason := reason }))
        (fun x hx => hf x (List.mem_cons_of_mem q hx))
        (fun x hx => hu x (List.mem_cons_of_mem q hx)) p hp with h1 | ⟨hmem, hkey⟩
    · exact Or.inl h1
    · by_cases hk : p.1 = q.1
      · exact Or.inl (haltStep_haltedAt_self cfg st _
          (hf q (List.mem_cons_self q ks)) (hu q (List.mem_cons_self q ks)) p hmem hk)
      · rcases haltStep_mem cfg st _ p hmem with h2 | h2
        · exact Or.inl h2
        · refine Or.inr ⟨h2, ?_⟩
          intro hin
          rcases List.mem_map.mp hin with ⟨x, hx, hxk⟩
          rcases List.mem_cons.mp hx with rfl | hx2
          · exact hk hxk.symm
          · exact hkey (List.mem_map.mpr ⟨x, hx2, hxk⟩)

/-- `onDropSpike` halts every live actor, provided actor keys are uppercase
and pass the execution-symbols filter. -/
theorem onDropSpike_halts (cfg : ReplayConfig) (n : Nat) (clock : Rat)
    (st : ReplayOrchState)
    (hf : ∀ q ∈ st.actors, symbolFiltered cfg q.1 = false)
    (hu : ∀ q ∈ st.actors, jsToUpper q.1 = q.1) :
    ∀ p ∈ (onDropSpike cfg n clock st).1.actors, p.2.state.halted = true := by
  intro p hp
  simp only [onDropSpike] at hp
  rw [List.foldl_map] at hp
  rcases haltFold_all cfg clock ("logger_drop_spike:" ++ toString n) st.actors st hf hu p hp
    with h | ⟨hmem, hkey⟩
  · exact h
  · exact absurd (List.mem_map.mpr ⟨p, hmem, rfl⟩) hkey

/-- Claim C8: an enqueue onto a full logger queue drops the item, leaves the
queue unchanged and bumps both drop counters; the 10-second timer invokes
the drop-spike callback exactly when `drop_window ≥ drop_halt_threshold` and
resets the window; the callback sends one `SYSTEM_HALT` with reason
`logger_drop_spike:<n>` per live actor, and afterwards every live actor is
halted (actor keys are uppercase and unfiltered); below the threshold only
the window resets. -/
theorem C8_drop_halt :
    (∀ (cfg : LoggerConfig) (st : LoggerState) (item : QueueItem),
      st.queue.length ≥ cfg.queueLimit →
      loggerEnqueue cfg st item =
        { st with dropCount := st.dropCount + 1
                  dropWindowCount := st.dropWindowCount + 1 })
    ∧ LOGGER_TIMER_INTERVAL_MS = 10000
    ∧
    (∀ (logCfg : LoggerConfig) (cfg : ReplayConfig) (clock : Rat) (lg : LoggerState)
        (st : ReplayOrchState),
      lg.dropWindowCount ≥ logCfg.dropHaltThreshold →
      (loggerTimerTick logCfg cfg clock lg st).1.dropWindowCount = 0
        ∧ (loggerTimerTick logCfg cfg clock lg st).2.2 =
            st.actors.map (fun p => ExecutionEvent.SYSTEM_HALT
              { symbol := p.1, event_time_ms := clock
                reason := "logger_drop_spike:" ++ toString lg.dropWindowCount }))
    ∧
    (∀ (logCfg : LoggerConfig) (cfg : ReplayConfig) (clock : Rat) (lg : LoggerState)
        (st : ReplayOrchState),
      lg.dropWindowCount ≥ logCfg.dropHaltThreshold →
      (∀ q ∈ st.actors, symbolFiltered cfg q.1 = false) →
      (∀ q ∈ st.actors, jsToUpper q.1 = q.1) →
      ∀ p ∈ (loggerTimerTick logCfg cfg clock lg st).2.1.actors,
        p.2.state.halted = true)
    ∧
    (∀ (logCfg : LoggerConfig) (cfg : ReplayConfig) (clock : Rat) (lg : LoggerState)
        (st : ReplayOrchState),
      lg.dropWindowCount < logCfg.dropHaltThreshold →
      loggerTimerTick logCfg cfg clock lg st = ({ lg with dropWindowCount := 0 }, st, [])) := by
  refine ⟨?_, rfl, ?_, ?_, ?_⟩
  · intro cfg st item h
    unfold loggerEnqueue
    rw [if_pos h]
  · intro logCfg cfg clock lg st h
    unfold loggerTimerTick
    rw [if_pos h]
    exact ⟨rfl, rfl⟩
  · intro logCfg cfg clock lg st h hf hu
    unfold loggerTimerTick
    rw [if_pos h]
    exact onDropSpike_halts cfg lg.dropWindowCount clock st hf hu
  · intro logCfg cfg clock lg st h
    unfold loggerTimerTick
    rw [if_neg (by omega)]

/-- Witness for C8: the concrete full-queue logger with a saturated window
halts both live actors on the timer tick, and an enqueue drops. -/
theorem C8_witness :
    loggerEnqueue c8logCfg c8logState { kind := .metrics, eventTimeMs := 3, payload := "c" } =
        { c8logState with dropCount := c8logState.dropCount + 1
                          dropWindowCount := c8logState.dropWindowCount + 1 }
      ∧ ∀ p ∈ (loggerTimerTick c8logCfg cexReplayCfg 99 c8logState c8orchState).2.1.actors,
          p.2.state.halted = true := by
  have hact : c8orchState.actors =
      [("BTCUSDT", initialActorState "BTCUSDT"),
       ("ETHUSDT", initialActorState "ETHUSDT")] := rfl
  have hf : ∀ q ∈ c8orchState.actors, symbolFiltered cexReplayCfg q.1 = false := by
    intro q hq
    rw [hact] at hq
    rcases List.mem_cons.mp hq with rfl | hq2
    · decide
    · rw [List.mem_singleton.mp hq2]
      decide
  have hu : ∀ q ∈ c8orchState.actors, jsToUpper q.1 = q.1 := by
    intro q hq
    rw [hact] at hq
    rcases List.mem_cons.mp hq with rfl | hq2
    · decide
    · rw [List.mem_singleton.mp hq2]
      decide
  constructor
  · exact C8_drop_halt.1 c8logCfg c8logState _ (by decide)
  · exact C8_drop_halt.2.2.2.1 c8logCfg cexReplayCfg 99 c8logState c8orchState (by decide) hf hu

/-! ## Snapshot-fetcher claim theorem -/

/-- Claim C6, settled against the code at the failing input: with the global
gate open, a LIVE book, default `backoff_ms = 5000` and only 30 s since the
last attempt, the claimed per-symbol throttle window
`max(60000, backoff_ms)` is still running — yet `fetchSnapshot` issues the
HTTP request (the guard conjoins the two bounds, i.e. uses their minimum),
stamping `lastSnapshotAttempt` and doubling the backoff on the error reply.
The other claimed behaviours hold: the global gate blocks even an UNSEEDED
book; HTTP 429 arms `global_backoff_until = now + Retry-After`, doubles the
backoff (capped at 120 s) and marks the book STALE; success applies the
snapshot and resets `backoff_ms = 5000` and `consecutive_errors = 0`; and
the fourth consecutive HTTP error escalates `ui_state` to STALE. -/
theorem C6_throttle_uses_min_not_max :
    ((30000 : Rat) - cexMeta.lastSnapshotAttempt <
        max SNAPSHOT_MIN_INTERVAL_MS cexMeta.backoffMs
      ∧ cexBook.uiState ≠ UiState.UNSEEDED
      ∧ (fetchSnapshot cexMeta cexBook 0 30000 (.httpError 500)).requested = true
      ∧ (fetchSnapshot cexMeta cexBook 0 30000 (.httpError 500)).meta.lastSnapshotAttempt = 30000
      ∧ (fetchSnapshot cexMeta cexBook 0 30000 (.httpError 500)).meta.backoffMs = 10000)
    ∧ (fetchSnapshot cexMeta createOrderbookState 40000 30000 (.httpError 500)).requested = false
    ∧ ((fetchSnapshot cexMeta cexBook 0 200000 (.rateLimited 429 60000)).globalBackoffUntil
          = 260000
        ∧ (fetchSnapshot cexMeta cexBook 0 200000 (.rateLimited 429 60000)).meta.backoffMs
            = 10000
        ∧ (fetchSnapshot { cexMeta with backoffMs := 90000 } cexBook 0 200000
            (.rateLimited 429 60000)).meta.backoffMs = 120000
        ∧ (fetchSnapshot cexMeta cexBook 0 200000
            (.rateLimited 429 60000)).ob.uiState = UiState.STALE)
    ∧ ((fetchSnapshot { cexMeta with backoffMs := 80000, consecutiveErrors := 2 } cexBook 0
          200000 (.ok snapS1)).meta.backoffMs = 5000
        ∧ (fetchSnapshot { cexMeta with backoffMs := 80000, consecutiveErrors := 2 } cexBook 0
            200000 (.ok snapS1)).meta.consecutiveErrors = 0
        ∧ (fetchSnapshot { cexMeta with backoffMs := 80000, consecutiveErrors := 2 } cexBook 0
            200000 (.ok snapS1)).ob.lastUpdateId = 100)
    ∧ ((fetchSnapshot { cexMeta with consecutiveErrors := 3 } cexBook 0 200000
          (.httpError 500)).ob.uiState = UiState.STALE
        ∧ (fetchSnapshot { cexMeta with consecutiveErrors := 2 } cexBook 0 200000
            (.httpError 500)).ob.uiState = UiState.RESYNCING) := by
  decide

/-! ## Stable-sort lemmas for the replay merge -/

theorem mem_insortBy {key : α → Rat} {x a : α} {l : List α} :
    a ∈ insortBy key x l ↔ a = x ∨ a ∈ l := by
  induction l with
  | nil => simp [insortBy]
  | cons y ys ih =>
    unfold insortBy
    split
    · simp only [List.mem_cons, ih]
      tauto
    · simp only [List.mem_cons]

theorem pairwise_insortBy (key : α → Rat) (x : α) (l : List α)
    (h : l.Pairwise (fun a b => key a ≤ key b)) :
    (insortBy key x l).Pairwise (fun a b => key a ≤ key b) := by
  induction l with
  | nil => simp [insortBy]
  | cons y ys ih =>
    rcases List.pairwise_cons.mp h with ⟨hy, hys⟩
    unfold insortBy
    split
    · next hle =>
      apply List.pairwise_cons.mpr
      refine ⟨?_, ih hys⟩
      intro b hb
      rcases mem_insortBy.mp hb with rfl | hb2
      · exact hle
      · exact hy b hb2
    · next hgt =>
      apply List.pairwise_cons.mpr
      refine ⟨?_, h⟩
      intro b hb
      rcases List.mem_cons.mp hb with rfl | hb2
      · exact (not_le.mp hgt).le
      · exact le_trans (not_le.mp hgt).le (hy b hb2)

theorem filter_insortBy (key : α → Rat) (x : α) (l : List α) (q : Rat)
    (h : l.Pairwise (fun a b => key a ≤ key b)) :
    (insortBy key x l).filter (fun a => decide (key a = q)) =
      if key x = q then
        l.filter (fun a => decide (key a = q)) ++ [x]
      else
        l.filter (fun a => decide (key a = q)) := by
  induction l with
  | nil =>
    by_cases hx : key x = q
    · simp [insortBy, hx]
    · simp [insortBy, hx]
  | cons y ys ih =>
    rcases List.pairwise_cons.mp h with ⟨hy, hys⟩
    unfold insortBy
    split
    · next hle =>
      by_cases hyq : key y = q
        <;> by_cases hxq : key x = q
        <;> simp [List.filter_cons, hyq, hxq, ih hys]
    · next hgt =>
      have hxy : key x < key y := not_le.mp hgt
      by_cases hxq : key x = q
      · have hnil : (y :: ys).filter (fun a => decide (key a = q)) = [] := by
          rw [List.filter_eq_nil_iff]
          intro b hb
          have hge : key y ≤ key b := by
            rcases List.mem_cons.mp hb with rfl | hb2
            · exact le_refl _
            · exact hy b hb2
          simp only [decide_eq_true_eq]
          intro hbq
          rw [← hxq] at hbq
          exact absurd (hbq ▸ hge) (not_le.mpr hxy)
        rw [if_pos hxq, hnil]
        simp [List.filter_cons, hxq, hnil]
      · rw [if_neg hxq]
        simp [List.filter_cons, hxq]

theorem foldl_insort_filter (key : α → Rat) (l : List α) (acc : List α) (q : Rat)
    (hs : acc.Pairwise (fun a b => key a ≤ key b)) :
    (l.foldl (fun acc x => insortBy key x acc) acc).filter (fun a => decide (key a = q)) =
      acc.filter (fun a => decide (key a = q)) ++ l.filter (fun a => decide (key a = q)) := by
  induction l generalizing acc with
  | nil => simp
  | cons x l ih =>
    rw [List.foldl_cons, ih _ (pairwise_insortBy key x acc hs),
      filter_insortBy key x acc q hs, List.filter_cons]
    split
    · next hxq =>
      rw [if_pos (by simpa using hxq)]
      simp
    · next hxq =>
      rw [if_neg (by simpa using hxq)]

theorem mem_foldl_insort {key : α → Rat} {a : α} (l : List α) (acc : List α) :
    a ∈ l.foldl (fun acc x => insortBy key x acc) acc ↔ a ∈ acc ∨ a ∈ l := by
  induction l generalizing acc with
  | nil => simp
  | cons x l ih =>
    rw [List.foldl_cons, ih]
    simp only [mem_insortBy, List.mem_cons]
    tauto

theorem pairwise_stableSortBy (key : α → Rat) (l : List α) :
    (stableSortBy key l).Pairwise (fun a b => key a ≤ key b) := by
  unfold stableSortBy
  suffices h : ∀ acc : List α, acc.Pairwise (fun a b => key a ≤ key b) →
      (l.foldl (fun acc x => insortBy key x acc) acc).Pairwise (fun a b => key a ≤ key b) by
    exact h [] (by simp)
  induction l with
  | nil => exact fun acc h => h
  | cons x l ih =>
    intro acc h
    exact ih _ (pairwise_insortBy key x acc h)

theorem filter_stableSortBy (key : α → Rat) (l : List α) (q : Rat) :
    (stableSortBy key l).filter (fun a => decide (key a = q)) =
      l.filter (fun a => decide (key a = q)) := by
  unfold stableSortBy
  rw [foldl_insort_filter key l [] q (by simp)]
  simp

theorem mem_stableSortBy {key : α → Rat} {a : α} {l : List α} :
    a ∈ stableSortBy key l ↔ a ∈ l := by
  unfold stableSortBy
  rw [mem_foldl_insort]
  simp

/-! ## Replay clock-independence lemmas -/

/-- `ingest` does not consult the wall clock when the line carries its own
`canonical_time_ms`. -/
theorem orchIngest_clock_eq (cfg : ReplayConfig) (c1 c2 : Rat) (st : ReplayOrchState)
    (m : OrchestratorMetricsInput) (h : m.canonical_time_ms ≠ none) :
    orchIngest cfg c1 st m = orchIngest cfg c2 st m := by
  unfold orchIngest
  cases hc : m.canonical_time_ms with
  | none => exact absurd hc h
  | some c => simp [hc]

/-- One replay dispatch step is clock-independent whenever a metrics line
without logged `metrics`+`gate` carries `canonical_time_ms`. -/
theorem processItem_clock_eq (cfg : ReplayConfig) (c1 c2 : Rat) (st : ReplayOrchState)
    (it : MergedItem)
    (h : ∀ line, it = .metrics line → line.metrics = none ∨ line.gate = none →
      line.payload.canonical_time_ms ≠ none) :
    processItem cfg c1 st it = processItem cfg c2 st it := by
  cases it with
  | execution e => rfl
  | metrics line =>
    cases hm : line.metrics with
    | some mm =>
      cases hg : line.gate with
      | some g => simp [processItem, hm, hg]
      | none =>
        simp only [processItem, hm, hg]
        exact orchIngest_clock_eq cfg c1 c2 st line.payload (h line rfl (Or.inr hg))
    | none =>
      simp only [processItem, hm]
      exact orchIngest_clock_eq cfg c1 c2 st line.payload (h line rfl (Or.inl hm))

theorem foldl_process_clock_eq (cfg : ReplayConfig) (c1 c2 : Rat) (l : List MergedItem)
    (st : ReplayOrchState)
    (h : ∀ it ∈ l, ∀ line, it = .metrics line → line.metrics = none ∨ line.gate = none →
      line.payload.canonical_time_ms ≠ none) :
    l.foldl (processItem cfg c1) st = l.foldl (processItem cfg c2) st := by
  induction l generalizing st with
  | nil => rfl
  | cons it l ih =>
    rw [List.foldl_cons, List.foldl_cons,
      processItem_clock_eq cfg c1 c2 st it (h it (List.mem_cons_self it l))]
    exact ih _ (fun x hx => h x (List.mem_cons_of_mem it hx))

/-- The merged replay work list. -/
def mergedItems (metricsLines : List MetricsLine) (execLines : List ExecLine) :
    List MergedItem :=
  stableSortBy itemKey
    (metricsLines.map MergedItem.metrics ++ execLines.map MergedItem.execution)

theorem replayFromLines_eq_foldl (cfg : ReplayConfig) (clock : Rat)
    (metricsLines : List MetricsLine) (execLines : List ExecLine) :
    replayFromLines cfg clock metricsLines execLines =
      (mergedItems metricsLines execLines).foldl (processItem cfg clock) emptyOrchState := rfl

/-- Counterexample for C4 as stated: a metrics line with no logged gate and
no `canonical_time_ms` makes `ingest` stamp `Date.now()` into the decision
record, so two runs started at different wall-clock instants produce
different decision ledgers — and hence different canonical serializations
feeding `decisionHash`. -/
theorem C4_counterexample :
    (replayFromLines cexReplayCfg 1000 [cexLine] []).ledger ≠
      (replayFromLines cexReplayCfg 2000 [cexLine] []).ledger := by
  decide

/-- Claim C4 (amended): replay is deterministic — independent of the wall
clock, hence identical across runs — whenever every metrics line lacking
logged `metrics`+`gate` carries `canonical_time_ms`; the merge is by event
time with a stable sort (sorted output, and the per-key subsequences are
exactly those of the input, in order); a line with both `metrics` and
`gate` is dispatched through `ingestLoggedMetrics`, which reuses the logged
gate verbatim and does not re-log; any other metrics line goes through
`ingest`, which re-runs the gate on the line's own fields and logs it. -/
theorem C4_replay_determinism :
    (∀ (cfg : ReplayConfig) (c1 c2 : Rat) (ml : List MetricsLine) (el : List ExecLine),
      (∀ l ∈ ml, l.metrics = none ∨ l.gate = none → l.payload.canonical_time_ms ≠ none) →
      replayFromLines cfg c1 ml el = replayFromLines cfg c2 ml el)
    ∧
    (∀ (ml : List MetricsLine) (el : List ExecLine),
      (mergedItems ml el).Pairwise (fun a b => itemKey a ≤ itemKey b)
        ∧ ∀ q : Rat, (mergedItems ml el).filter (fun a => decide (itemKey a = q)) =
            (ml.map MergedItem.metrics ++ el.map MergedItem.execution).filter
              (fun a => decide (itemKey a = q)))
    ∧
    (∀ (cfg : ReplayConfig) (clock : Rat) (st : ReplayOrchState) (line : MetricsLine)
        (mm : OrchestratorMetricsInput) (g : GateResult),
      line.metrics = some mm → line.gate = some g → cfg.executionSymbols = [] →
      (processItem cfg clock st (.metrics line)).metricsLog = st.metricsLog
        ∧ ∃ rec, (processItem cfg clock st (.metrics line)).ledger = st.ledger ++ [rec]
            ∧ rec.gate = g)
    ∧
    (∀ (cfg : ReplayConfig) (clock : Rat) (st : ReplayOrchState) (line : MetricsLine),
      line.metrics = none ∨ line.gate = none → cfg.executionSymbols = [] →
      ∃ entry rec,
        (processItem cfg clock st (.metrics line)).metricsLog = st.metricsLog ++ [entry]
          ∧ (processItem cfg clock st (.metrics line)).ledger = st.ledger ++ [rec]
          ∧ rec.gate =
              runGate
                { canonical_time_ms := line.payload.canonical_time_ms.getD clock
                  exchange_event_time_ms := line.payload.exchange_event_time_ms
                  metrics := line.payload }
                cfg.gate
          ∧ entry.gate = rec.gate) := by
  refine ⟨?_, ?_, ?_, ?_⟩
  · intro cfg c1 c2 ml el h
    rw [replayFromLines_eq_foldl, replayFromLines_eq_foldl]
    apply foldl_process_clock_eq
    intro it hit line hline hmiss
    rw [hline] at hit
    have hmem := mem_stableSortBy.mp hit
    rcases List.mem_append.mp hmem with h1 | h1
    · obtain ⟨l0, hl0, heq⟩ := List.mem_map.mp h1
      injection heq with h2
      subst h2
      exact h _ hl0 hmiss
    · obtain ⟨l0, hl0, heq⟩ := List.mem_map.mp h1
      simp at heq
  · intro ml el
    exact ⟨pairwise_stableSortBy itemKey _, fun q => filter_stableSortBy itemKey _ q⟩
  · intro cfg clock st line mm g hm hg hsyms
    simp only [processItem, hm, hg]
    unfold orchIngestLogged
    rw [if_neg (by simp [symbolFiltered, hsyms])]
    unfold enqueueMetrics
    exact ⟨rfl, _, rfl, rfl⟩
  · intro cfg clock st line hmiss hsyms
    have hdispatch : processItem cfg clock st (.metrics line) =
        orchIngest cfg clock st line.payload := by
      rcases hmiss with h | h
      · simp [processItem, h]
      · cases hm : line.metrics with
        | none => simp [processItem, hm]
        | some mm => simp [processItem, hm, h]
    rw [hdispatch]
    unfold orchIngest
    rw [if_neg (by simp [symbolFiltered, hsyms])]
    unfold enqueueMetrics
    exact ⟨_, _, rfl, rfl, rfl, rfl⟩

/-- Witness for C4 (amended): two runs with different wall clocks agree on a
metrics line that carries its `canonical_time_ms`. -/
theorem C4_witness :
    replayFromLines cexReplayCfg 1000 [c4goodLine] [] =
      replayFromLines cexReplayCfg 2000 [c4goodLine] [] :=
  C4_replay_determinism.1 cexReplayCfg 1000 2000 [c4goodLine] []
    (by
      intro l hl hmiss
      rw [List.mem_singleton.mp hl]
      decide)

end Orderflow
